import Mathlib

/-!
# Differential drive control cycle

A shallow embedding of `src/modules/differential_drive/DifferentialDrive.cpp`
(`DifferentialDrive::updateParams` and `DifferentialDrive::Run`).

Conventions of the embedding:

* `float` and `double` values are idealised as rationals (`ℚ`): every value is
  finite and arithmetic is exact, there is no NaN, no infinity, no rounding.
  The one place where rounding is modelled is `updateParams_with`, which takes
  the product and the quotients of source lines 72-73 as parameters and is
  instantiated with single-precision rounding (`f32_mul`, `f32_div`).
* `hrt_abstime` (`uint64_t`) values are natural numbers; every arithmetic
  operation the code performs on them is reduced modulo `2 ^ 64` explicitly.
* The member state of the C++ object is the record `State`; one call of `Run`
  is the function `Run : Deps → State → Inputs → State × List Event`.
* What the cycle reads from the outside (clock, uORB subscriptions, parameter
  store) is the record `Inputs`: each field is what the corresponding call
  returns at the place where `Run` makes it.
* What the cycle does to the outside (calls into collaborators, publications)
  is recorded, in program order, in the returned `List Event`.
* Code that `Run` calls but that lives in other translation units (the PID
  library, the kinematics and guidance classes, the quaternion helpers, the
  header constant `kTimeoutUs`) is the record `Deps`; theorems quantify over it.
-/

namespace DifferentialDrive

/-! ## Machine integers -/

/-- Modulus of `uint64_t` arithmetic. -/
def UINT64_MOD : Nat := 2 ^ 64

/-- Wrapping `uint64_t` subtraction `a - b` (operands below `2 ^ 64`). -/
def u64_sub (a b : Nat) : Nat := (a + UINT64_MOD - b) % UINT64_MOD

/-- Wrapping `uint64_t` addition `a + b`. -/
def u64_add (a b : Nat) : Nat := (a + b) % UINT64_MOD

/-- The literal `100_ms` of `time_literals`, in microseconds. -/
def hundred_ms : Nat := 100000

/-- The constant `FLT_EPSILON` of `<cfloat>`, `2 ^ (-23)`. -/
def FLT_EPSILON : ℚ := 1 / 8388608

/-! ## Messages and small value types -/

/-- A `matrix::Vector2f`. -/
abbrev Vector2f := ℚ × ℚ

/-- A `matrix::Vector3f`. -/
structure Vector3f where
  x : ℚ
  y : ℚ
  z : ℚ
deriving DecidableEq

/-- A `matrix::Quatf`. -/
structure Quatf where
  w : ℚ
  x : ℚ
  y : ℚ
  z : ℚ
deriving DecidableEq

/-- Message `differential_drive_setpoint_s` (fields used by the module). -/
structure differential_drive_setpoint_s where
  timestamp : Nat
  speed : ℚ
  yaw_rate : ℚ
deriving DecidableEq

/-- Message `vehicle_control_mode_s` (fields used by the module). -/
structure vehicle_control_mode_s where
  flag_armed : Bool
  flag_control_manual_enabled : Bool
  flag_control_auto_enabled : Bool
deriving DecidableEq

/-- Message `vehicle_attitude_s` (fields used by the module). -/
structure vehicle_attitude_s where
  q : Quatf
deriving DecidableEq

/-- Message `vehicle_angular_velocity_s` (fields used by the module);
`xyz.z` is `xyz[2]`. -/
structure vehicle_angular_velocity_s where
  xyz : Vector3f
deriving DecidableEq

/-- Message `vehicle_local_position_s` (fields used by the module). -/
structure vehicle_local_position_s where
  vx : ℚ
  vy : ℚ
  vz : ℚ
deriving DecidableEq

/-- Message `manual_control_setpoint_s` (fields used by the module). -/
structure manual_control_setpoint_s where
  throttle : ℚ
  roll : ℚ
deriving DecidableEq

/-- Message `actuator_motors_s`: `control` is the pair `control[0], control[1]`
that `wheel_speeds.copyTo` fills; the message is value-initialised, the
remaining slots stay zero and are not represented. -/
structure actuator_motors_s where
  timestamp : Nat
  reversible_flags : Int
  control : Vector2f
deriving DecidableEq

/-- The module parameters read through `_param_*.get()`. -/
structure Params where
  rdd_p_gain_angular_velocity : ℚ
  rdd_i_gain_angular_velocity : ℚ
  rdd_p_gain_speed : ℚ
  rdd_i_gain_speed : ℚ
  rdd_max_wheel_speed : ℚ
  rdd_wheel_radius : ℚ
  rdd_wheel_base : ℚ
  rdd_speed_scale : ℚ
  rdd_ang_velocity_scale : ℚ
  r_rev : Int
deriving DecidableEq

/-! ## Collaborator objects -/

/-- Modelled from the spec: the `PID_t` record of the PID library, which is not
part of this translation unit. The spec (data model, ControllerState) gives it
an accumulated integral term, the two gains, the integral clamp bound and the
output clamp bound. -/
structure PID_t where
  kp : ℚ
  ki : ℚ
  integral : ℚ
  integral_limit : ℚ
  output_limit : ℚ
deriving DecidableEq

/-- Modelled from the spec: the configuration held by the
`DifferentialDriveKinematics` object, whose class is not part of this
translation unit; the three fields are the ones written by `setWheelBase`,
`setMaxSpeed` and `setMaxAngularVelocity`. -/
structure DifferentialDriveKinematics where
  _wheel_base : ℚ
  _max_speed : ℚ
  _max_angular_velocity : ℚ
deriving DecidableEq

/-- Modelled from the spec: the guidance collaborator object, whose class is
not part of this translation unit: the two limits written by `setMaxSpeed` and
`setMaxAngularVelocity`, and `hidden`, standing for whatever further state the
black box keeps between calls. -/
structure DifferentialDriveGuidance where
  _max_speed : ℚ
  _max_angular_velocity : ℚ
  hidden : Nat
deriving DecidableEq

/-- Code that `Run` and `updateParams` call and that is defined elsewhere. -/
structure Deps where
  /-- Header constant `kTimeoutUs` (a `uint64_t`). -/
  kTimeoutUs : Nat
  /-- Yaw of a quaternion, `matrix::Eulerf(q).psi()`. -/
  euler_psi : Quatf → ℚ
  /-- Method `Quatf::rotateVectorInverse`. -/
  rotateVectorInverse : Quatf → Vector3f → Vector3f
  /-- Library `pid_set_parameters(pid, kp, ki, kd, integral_limit, output_limit)`. -/
  pid_set_parameters : PID_t → ℚ → ℚ → ℚ → ℚ → ℚ → PID_t
  /-- Library `pid_calculate(pid, sp, val, val_dot, dt)`: new PID state and output. -/
  pid_calculate : PID_t → ℚ → ℚ → ℚ → ℚ → PID_t × ℚ
  /-- Method `computeGuidance(yaw, angular_velocity, dt)`: new guidance state and output. -/
  computeGuidance : DifferentialDriveGuidance → ℚ → ℚ → ℚ → DifferentialDriveGuidance × Vector2f
  /-- Method `computeInverseKinematics(linear_velocity_x, yaw_rate)`. -/
  computeInverseKinematics : DifferentialDriveKinematics → ℚ → ℚ → Vector2f

/-! ## Object state, inputs and effects -/

/-- The two PID controller instances of the module. -/
inductive PidId
  | speed
  | angular_velocity
deriving DecidableEq

/-- Member variables of `DifferentialDrive`. -/
structure State where
  params : Params
  _time_stamp_last : Nat
  _armed : Bool
  _manual_driving : Bool
  _mission_driving : Bool
  _vehicle_attitude_quaternion : Quatf
  _vehicle_yaw : ℚ
  _vehicle_angular_velocity : vehicle_angular_velocity_s
  _velocity_in_body_frame : Vector3f
  _differential_drive_setpoint : differential_drive_setpoint_s
  _speed_pid_output : ℚ
  _angular_velocity_pid_output : ℚ
  _speed_pid : PID_t
  _angular_velocity_pid : PID_t
  _max_speed : ℚ
  _max_angular_velocity : ℚ
  _differential_drive_kinematics : DifferentialDriveKinematics
  _differential_guidance_controller : DifferentialDriveGuidance
deriving DecidableEq

/-- One uORB subscription as seen in one cycle: what `updated()` returns, and
what `copy` delivers (`none` when `copy` returns false and leaves its
destination untouched). -/
structure Subscription (α : Type) where
  updated : Bool
  copy : Option α

/-- Everything one call of `Run` reads from outside the object. -/
structure Inputs where
  should_exit : Bool
  hrt_absolute_time : Nat
  parameter_update_updated : Bool
  /-- Values the parameter store holds, loaded by `ModuleParams::updateParams`. -/
  param_store : Params
  vehicle_control_mode : Subscription vehicle_control_mode_s
  vehicle_attitude : Subscription vehicle_attitude_s
  vehicle_angular_velocity : Subscription vehicle_angular_velocity_s
  vehicle_local_position : Subscription vehicle_local_position_s
  manual_control_setpoint : Subscription manual_control_setpoint_s
  differential_drive_control_output : Subscription differential_drive_setpoint_s
  differential_drive_setpoint : Subscription differential_drive_setpoint_s

/-- Calls and publications made by one call of `Run`, in program order. -/
inductive Event
  | ScheduleClear
  | exit_and_cleanup
  | computeGuidance (yaw angular_velocity dt : ℚ)
  | publish_control_output (m : differential_drive_setpoint_s)
  | publish_setpoint (m : differential_drive_setpoint_s)
  | pid_calculate (pid : PidId) (sp val val_dot dt : ℚ)
  | computeInverseKinematics (linear_velocity_x yaw_rate : ℚ)
  | publish_actuator_motors (m : actuator_motors_s)
deriving DecidableEq

/-! ## Helper functions of the libraries -/

/-- Modelled from the spec: scalar `matrix::constrain(x, lower, upper)`, which is
not part of this translation unit; the spec (safety and saturation stage) says
each wheel command is clamped to the closed interval. -/
def constrain (x lower_bound upper_bound : ℚ) : ℚ :=
  max lower_bound (min upper_bound x)

/-- Component-wise `matrix::constrain` on a `Vector2f`. -/
def constrain2 (v : Vector2f) (lower_bound upper_bound : ℚ) : Vector2f :=
  (constrain v.1 lower_bound upper_bound, constrain v.2 lower_bound upper_bound)

/-! ## `DifferentialDrive::updateParams` -/

/-- Method `updateParams` (source lines 54-80). `store` is what
`ModuleParams::updateParams` loads into the `_param_*` members. -/
def updateParams (d : Deps) (store : Params) (s : State) : State :=
  let s := { s with params := store }
  let s := { s with
    _angular_velocity_pid :=
      d.pid_set_parameters s._angular_velocity_pid
        s.params.rdd_p_gain_angular_velocity s.params.rdd_i_gain_angular_velocity 0 20 200 }
  let s := { s with
    _speed_pid :=
      d.pid_set_parameters s._speed_pid
        s.params.rdd_p_gain_speed s.params.rdd_i_gain_speed 0 2 200 }
  let s := { s with _max_speed := s.params.rdd_max_wheel_speed * s.params.rdd_wheel_radius }
  let s := { s with _max_angular_velocity := s._max_speed / (s.params.rdd_wheel_base / 2) }
  let s := { s with
    _differential_drive_kinematics :=
      { s._differential_drive_kinematics with _wheel_base := s.params.rdd_wheel_base } }
  let s := { s with
    _differential_drive_kinematics :=
      { s._differential_drive_kinematics with _max_speed := s._max_speed } }
  let s := { s with
    _differential_guidance_controller :=
      { s._differential_guidance_controller with _max_speed := s._max_speed } }
  let s := { s with
    _differential_drive_kinematics :=
      { s._differential_drive_kinematics with _max_angular_velocity := s._max_angular_velocity } }
  let s := { s with
    _differential_guidance_controller :=
      { s._differential_guidance_controller with
        _max_angular_velocity := s._max_angular_velocity } }
  s

/-! ## `DifferentialDrive::Run`, stage by stage -/

/-- Source lines 84-87: the exit check. There is no `return` in the branch, so
the rest of `Run` follows in either case. -/
def exit_check (i : Inputs) : List Event :=
  if i.should_exit then [Event.ScheduleClear, Event.exit_and_cleanup] else []

/-- Source line 90: `dt`, in seconds, from the previous and the current time. -/
def compute_dt (d : Deps) (time_stamp_last now : Nat) : ℚ :=
  ((min (u64_sub now time_stamp_last) d.kTimeoutUs : Nat) : ℚ) / 1000000

/-- Source lines 93-98: parameter update. -/
def poll_parameter_update (d : Deps) (s : State) (i : Inputs) : State :=
  if i.parameter_update_updated then updateParams d i.param_store s else s

/-- Source lines 100-108: arming and mode flags. -/
def poll_vehicle_control_mode (s : State) (i : Inputs) : State :=
  if i.vehicle_control_mode.updated then
    match i.vehicle_control_mode.copy with
    | some m =>
      { s with
        _armed := m.flag_armed
        _manual_driving := m.flag_control_manual_enabled
        _mission_driving := m.flag_control_auto_enabled }
    | none => s
  else s

/-- Source lines 110-117: attitude and yaw. -/
def poll_vehicle_attitude (d : Deps) (s : State) (i : Inputs) : State :=
  if i.vehicle_attitude.updated then
    match i.vehicle_attitude.copy with
    | some m =>
      let s := { s with _vehicle_attitude_quaternion := m.q }
      { s with _vehicle_yaw := d.euler_psi s._vehicle_attitude_quaternion }
    | none => s
  else s

/-- Source lines 119-121: angular velocity. -/
def poll_vehicle_angular_velocity (s : State) (i : Inputs) : State :=
  if i.vehicle_angular_velocity.updated then
    match i.vehicle_angular_velocity.copy with
    | some m => { s with _vehicle_angular_velocity := m }
    | none => s
  else s

/-- Source lines 123-130: velocity in the body frame. -/
def poll_vehicle_local_position (d : Deps) (s : State) (i : Inputs) : State :=
  if i.vehicle_local_position.updated then
    match i.vehicle_local_position.copy with
    | some m =>
      let velocity_in_local_frame : Vector3f := ⟨m.vx, m.vy, m.vz⟩
      { s with
        _velocity_in_body_frame :=
          d.rotateVectorInverse s._vehicle_attitude_quaternion velocity_in_local_frame }
    | none => s
  else s

/-- Source lines 89-130: the state after the clock has been read and all
vehicle-state subscriptions have been polled. -/
def refresh (d : Deps) (s : State) (i : Inputs) : State :=
  let s := { s with _time_stamp_last := i.hrt_absolute_time }
  let s := poll_parameter_update d s i
  let s := poll_vehicle_control_mode s i
  let s := poll_vehicle_attitude d s i
  let s := poll_vehicle_angular_velocity s i
  let s := poll_vehicle_local_position d s i
  s

/-- Source lines 132-161: manual branch, else mission branch. -/
def arbitrate (d : Deps) (s : State) (i : Inputs) (now : Nat) (dt : ℚ) : State × List Event :=
  if s._manual_driving then
    if i.manual_control_setpoint.updated then
      match i.manual_control_setpoint.copy with
      | some manual_control_setpoint =>
        let sp : differential_drive_setpoint_s :=
          { timestamp := now
            speed := manual_control_setpoint.throttle * s.params.rdd_speed_scale * s._max_speed
            yaw_rate := manual_control_setpoint.roll * s.params.rdd_ang_velocity_scale *
              s._max_angular_velocity }
        ({ s with _differential_drive_setpoint := sp }, [Event.publish_control_output sp])
      | none => (s, [])
    else (s, [])
  else if s._mission_driving then
    let r := d.computeGuidance s._differential_guidance_controller
      s._vehicle_yaw s._vehicle_angular_velocity.xyz.z dt
    let guidance_output := r.2
    let sp : differential_drive_setpoint_s :=
      { timestamp := now, speed := guidance_output.1, yaw_rate := guidance_output.2 }
    ({ s with _differential_guidance_controller := r.1, _differential_drive_setpoint := sp },
      [Event.computeGuidance s._vehicle_yaw s._vehicle_angular_velocity.xyz.z dt,
       Event.publish_setpoint sp])
  else (s, [])

/-- Source lines 164-169: the control-output subscription. -/
def poll_control_output (s : State) (i : Inputs) : State :=
  if i.differential_drive_control_output.updated then
    let s :=
      match i.differential_drive_control_output.copy with
      | some m => { s with _differential_drive_setpoint := m }
      | none => s
    { s with _speed_pid_output := 0, _angular_velocity_pid_output := 0 }
  else s

/-- Source lines 171-177: the setpoint subscription and the two PI controllers. -/
def poll_setpoint (d : Deps) (s : State) (i : Inputs) (dt : ℚ) : State × List Event :=
  if i.differential_drive_setpoint.updated then
    let s :=
      match i.differential_drive_setpoint.copy with
      | some m => { s with _differential_drive_setpoint := m }
      | none => s
    let r1 := d.pid_calculate s._speed_pid s._differential_drive_setpoint.speed
      s._velocity_in_body_frame.x 0 dt
    let e1 := Event.pid_calculate PidId.speed s._differential_drive_setpoint.speed
      s._velocity_in_body_frame.x 0 dt
    let s := { s with _speed_pid := r1.1, _speed_pid_output := r1.2 }
    let r2 := d.pid_calculate s._angular_velocity_pid s._differential_drive_setpoint.yaw_rate
      s._vehicle_angular_velocity.xyz.z 0 dt
    let e2 := Event.pid_calculate PidId.angular_velocity s._differential_drive_setpoint.yaw_rate
      s._vehicle_angular_velocity.xyz.z 0 dt
    ({ s with _angular_velocity_pid := r2.1, _angular_velocity_pid_output := r2.2 }, [e1, e2])
  else (s, [])

/-- The two arguments `Run` passes to `computeInverseKinematics` (source lines 181-182). -/
def kinematics_input (s : State) : ℚ × ℚ :=
  (s._differential_drive_setpoint.speed + s._speed_pid_output,
   s._differential_drive_setpoint.yaw_rate + s._angular_velocity_pid_output)

/-- Source line 185: `setpoint_timeout`. -/
def setpoint_timeout (s : State) (now : Nat) : Bool :=
  decide (u64_add s._differential_drive_setpoint.timestamp hundred_ms < now)

/-- Source line 186: `valid_max_speed`. -/
def valid_max_speed (s : State) : Bool :=
  decide (s.params.rdd_speed_scale > FLT_EPSILON)

/-- Source lines 180-192: kinematics, stop conditions and saturation. -/
def final_wheel_speeds (d : Deps) (s : State) (now : Nat) : Vector2f :=
  let wheel_speeds := d.computeInverseKinematics s._differential_drive_kinematics
    (kinematics_input s).1 (kinematics_input s).2
  let wheel_speeds : Vector2f :=
    if !s._armed || setpoint_timeout s now || !valid_max_speed s then (0, 0) else wheel_speeds
  constrain2 wheel_speeds (-1) 1

/-- Source lines 194-198: the actuator message. -/
def make_actuator_motors (d : Deps) (s : State) (now : Nat) : actuator_motors_s :=
  { reversible_flags := s.params.r_rev
    control := final_wheel_speeds d s now
    timestamp := now }

/-- Method `Run` (source lines 82-199): the new object state and the calls and
publications made, in order. -/
def Run (d : Deps) (s : State) (i : Inputs) : State × List Event :=
  let ev_exit := exit_check i
  let now := i.hrt_absolute_time
  let dt := compute_dt d s._time_stamp_last now
  let s := refresh d s i
  let a := arbitrate d s i now dt
  let s := poll_control_output a.1 i
  let p := poll_setpoint d s i dt
  let s := p.1
  (s, ev_exit ++ a.2 ++ p.2 ++
    [Event.computeInverseKinematics (kinematics_input s).1 (kinematics_input s).2,
     Event.publish_actuator_motors (make_actuator_motors d s now)])

/-! ## Observations on a trace -/

/-- The actuator messages published in a trace, in order. -/
def actuator_messages (tr : List Event) : List actuator_motors_s :=
  tr.filterMap fun e =>
    match e with
    | Event.publish_actuator_motors m => some m
    | _ => none

/-- The wheel commands written into the actuator messages of a trace. -/
def wheel_commands (tr : List Event) : List Vector2f :=
  (actuator_messages tr).map fun m => m.control

/-- The argument triples of the `computeGuidance` calls of a trace. -/
def guidance_calls (tr : List Event) : List (ℚ × ℚ × ℚ) :=
  tr.filterMap fun e =>
    match e with
    | Event.computeGuidance yaw w dt => some (yaw, w, dt)
    | _ => none

/-- The `pid_calculate` calls of a trace: controller, `sp`, `val`, `val_dot`, `dt`. -/
def pid_calls (tr : List Event) : List (PidId × ℚ × ℚ × ℚ × ℚ) :=
  tr.filterMap fun e =>
    match e with
    | Event.pid_calculate pid sp val val_dot dt => some (pid, sp, val, val_dot, dt)
    | _ => none

/-- The argument pairs of the `computeInverseKinematics` calls of a trace. -/
def kinematics_calls (tr : List Event) : List (ℚ × ℚ) :=
  tr.filterMap fun e =>
    match e with
    | Event.computeInverseKinematics v w => some (v, w)
    | _ => none

/-- The messages published on the setpoint topic by the mission branch. -/
def setpoint_publications (tr : List Event) : List differential_drive_setpoint_s :=
  tr.filterMap fun e =>
    match e with
    | Event.publish_setpoint m => some m
    | _ => none

/-- The `dt` arguments handed to `computeGuidance` and `pid_calculate` in a trace. -/
def dt_arguments (tr : List Event) : List ℚ :=
  tr.filterMap fun e =>
    match e with
    | Event.computeGuidance _ _ dt => some dt
    | Event.pid_calculate _ _ _ _ dt => some dt
    | _ => none

/-- Age of the setpoint held by `s` at time `now`, in microseconds: `now` minus
the setpoint timestamp, as an integer (negative for a timestamp ahead of `now`). -/
def setpoint_age (s : State) (now : Nat) : Int :=
  (now : Int) - (s._differential_drive_setpoint.timestamp : Int)

/-- The state at the kinematics step of a cycle, which is also the state the
cycle leaves behind. -/
def state_at_kinematics (d : Deps) (s : State) (i : Inputs) : State :=
  (Run d s i).1

/-- The state right after arbitration (source line 161) in a cycle. -/
def state_after_arbitration (d : Deps) (s : State) (i : Inputs) : State :=
  (arbitrate d (refresh d s i) i i.hrt_absolute_time
    (compute_dt d s._time_stamp_last i.hrt_absolute_time)).1

/-! ## Reference definitions, following the words of the spec -/

/-- Reference for the safety and saturation stage (spec section 4.4): stop when
not armed, or the setpoint age exceeds 100 ms, or the speed scale is at or below
epsilon; otherwise clamp each wheel command to the closed interval from -1 to 1. -/
def safety_stage_reference (wheelCommand : Vector2f) (armed : Bool) (setpointAge : Int)
    (speedScale : ℚ) : Vector2f :=
  if armed = false ∨ setpointAge > 100000 ∨ speedScale ≤ FLT_EPSILON then (0, 0)
  else (max (-1) (min 1 wheelCommand.1), max (-1) (min 1 wheelCommand.2))

/-! ## Collaborators as the spec describes them, and sample data -/

/-- Modelled from the spec: `pid_set_parameters` of the PID library, which is
not part of this translation unit: it stores the gains and the two clamp
bounds (the derivative gain is unused, spec section 4.1). -/
def pid_set_parameters_spec (pid : PID_t) (kp ki _kd integral_limit output_limit : ℚ) : PID_t :=
  { pid with kp := kp, ki := ki, integral_limit := integral_limit, output_limit := output_limit }

/-- Modelled from the spec: `pid_calculate` of the PID library, which is not
part of this translation unit (spec section 4.1): error, clamped integral
accumulation, clamped proportional-integral output. -/
def pid_calculate_spec (pid : PID_t) (sp val _val_dot dt : ℚ) : PID_t × ℚ :=
  let error := sp - val
  let integral :=
    constrain (pid.integral + error * dt) (-pid.integral_limit) pid.integral_limit
  let output :=
    constrain (pid.kp * error + pid.ki * integral) (-pid.output_limit) pid.output_limit
  ({ pid with integral := integral }, output)

/-- Modelled from the spec: `computeInverseKinematics` of the kinematics class,
which is not part of this translation unit (spec section 4.2): the standard
differential-drive relation, normalised by the maximum speed, zero when the
maximum speed is not positive, no clamping. -/
def computeInverseKinematics_spec (k : DifferentialDriveKinematics) (speed yawRate : ℚ) :
    Vector2f :=
  if k._max_speed ≤ 0 then (0, 0)
  else ((speed - yawRate * (k._wheel_base / 2)) / k._max_speed,
        (speed + yawRate * (k._wheel_base / 2)) / k._max_speed)

/-- A concrete set of collaborators for evaluating the cycle on examples: PID
and kinematics as the spec describes them, a guidance black box that always
answers `(1, 1)`, heading extraction fixed to `0`, the identity rotation, and
a `dt` ceiling of 5000 microseconds. -/
def sample_deps : Deps :=
  { kTimeoutUs := 5000
    euler_psi := fun _ => 0
    rotateVectorInverse := fun _ v => v
    pid_set_parameters := pid_set_parameters_spec
    pid_calculate := pid_calculate_spec
    computeGuidance := fun g _ _ _ => (g, (1, 1))
    computeInverseKinematics := computeInverseKinematics_spec }

/-- Sample parameters: maximum speed `4 * 1/2 = 2`, wheel base `1/2`, unit scales. -/
def sample_params : Params :=
  { rdd_p_gain_angular_velocity := 1
    rdd_i_gain_angular_velocity := 1
    rdd_p_gain_speed := 1
    rdd_i_gain_speed := 1
    rdd_max_wheel_speed := 4
    rdd_wheel_radius := 1 / 2
    rdd_wheel_base := 1 / 2
    rdd_speed_scale := 1
    rdd_ang_velocity_scale := 1
    r_rev := 3 }

/-- A sample PID state with a non-zero accumulated integral. -/
def sample_pid : PID_t :=
  { kp := 1, ki := 1, integral := 1, integral_limit := 2, output_limit := 200 }

/-- A sample object state: armed, manual mode, at rest, holding the setpoint
`speed = 1, yaw_rate = 0` stamped `ts`, previous cycle at time `last`. -/
def sample_state (ts last : Nat) : State :=
  { params := sample_params
    _time_stamp_last := last
    _armed := true
    _manual_driving := true
    _mission_driving := false
    _vehicle_attitude_quaternion := ⟨1, 0, 0, 0⟩
    _vehicle_yaw := 0
    _vehicle_angular_velocity := ⟨⟨0, 0, 0⟩⟩
    _velocity_in_body_frame := ⟨0, 0, 0⟩
    _differential_drive_setpoint := ⟨ts, 1, 0⟩
    _speed_pid_output := 0
    _angular_velocity_pid_output := 0
    _speed_pid := sample_pid
    _angular_velocity_pid := sample_pid
    _max_speed := 2
    _max_angular_velocity := 8
    _differential_drive_kinematics := ⟨1 / 2, 2, 8⟩
    _differential_guidance_controller := ⟨2, 8, 0⟩ }

/-- Inputs of a cycle at time `now` in which no subscription has new data. -/
def quiet_inputs (now : Nat) : Inputs :=
  { should_exit := false
    hrt_absolute_time := now
    parameter_update_updated := false
    param_store := sample_params
    vehicle_control_mode := ⟨false, none⟩
    vehicle_attitude := ⟨false, none⟩
    vehicle_angular_velocity := ⟨false, none⟩
    vehicle_local_position := ⟨false, none⟩
    manual_control_setpoint := ⟨false, none⟩
    differential_drive_control_output := ⟨false, none⟩
    differential_drive_setpoint := ⟨false, none⟩ }

/-- Inputs at time `now` with one new vehicle-control-mode message and nothing else. -/
def mode_inputs (now : Nat) (m : vehicle_control_mode_s) : Inputs :=
  { quiet_inputs now with vehicle_control_mode := ⟨true, some m⟩ }

/-- Inputs at time `now` with a new manual sample, and a new control-output
message `m`. -/
def manual_and_output_inputs (now : Nat) (stick : manual_control_setpoint_s)
    (m : differential_drive_setpoint_s) : Inputs :=
  { quiet_inputs now with
    manual_control_setpoint := ⟨true, some stick⟩
    differential_drive_control_output := ⟨true, some m⟩ }


/-- The wheel command the reference definition of the safety and saturation
stage yields for the state `s` at the kinematics step and the time `now`: the
reference applied to the kinematics result for setpoint plus stored PI outputs,
the armed flag, the setpoint age and the speed-scale parameter. -/
def reference_wheel_command (d : Deps) (s : State) (now : Nat) : Vector2f :=
  safety_stage_reference
    (d.computeInverseKinematics s._differential_drive_kinematics
      (s._differential_drive_setpoint.speed + s._speed_pid_output)
      (s._differential_drive_setpoint.yaw_rate + s._angular_velocity_pid_output))
    s._armed (setpoint_age s now) s.params.rdd_speed_scale


/-- Inputs at time `now` with a mode message selecting mission mode (armed,
manual off, auto on) and a new message `m` on the setpoint subscription. -/
def mission_inputs (now : Nat) (m : differential_drive_setpoint_s) : Inputs :=
  { quiet_inputs now with
    vehicle_control_mode := ⟨true, some ⟨true, false, true⟩⟩
    differential_drive_setpoint := ⟨true, some m⟩ }

/-- Inputs at time `now` with a new manual sample and nothing else. -/
def manual_inputs (now : Nat) (stick : manual_control_setpoint_s) : Inputs :=
  { quiet_inputs now with manual_control_setpoint := ⟨true, some stick⟩ }


/-- Inputs at time `now` of a mission cycle (mode message: armed, manual off,
auto on) in which the control-output subscription delivers `override` and the
setpoint subscription delivers `m`. -/
def override_and_setpoint_inputs (now : Nat) (override m : differential_drive_setpoint_s) :
    Inputs :=
  { quiet_inputs now with
    vehicle_control_mode := ⟨true, some ⟨true, false, true⟩⟩
    differential_drive_control_output := ⟨true, some override⟩
    differential_drive_setpoint := ⟨true, some m⟩ }


/-- The kinematics object holds the maximum speed that `updateParams` derives
from the current parameters (maximum wheel angular speed times wheel radius).
`updateParams` establishes this and `Run` keeps it. -/
def kinematics_configured (s : State) : Prop :=
  s._differential_drive_kinematics._max_speed =
    s.params.rdd_max_wheel_speed * s.params.rdd_wheel_radius

/-- Inputs at time `now` with a parameter update that loads `store`, and
nothing else. -/
def parameter_inputs (now : Nat) (store : Params) : Inputs :=
  { quiet_inputs now with parameter_update_updated := true, param_store := store }


/-- Inputs at time `now` of a cycle that switches to manual mode (mode message:
armed, manual on, auto off), reads the manual sample `stick` and receives the
control-output message `m`. -/
def manual_switch_inputs (now : Nat) (stick : manual_control_setpoint_s)
    (m : differential_drive_setpoint_s) : Inputs :=
  { manual_and_output_inputs now stick m with
    vehicle_control_mode := ⟨true, some ⟨true, true, false⟩⟩ }

/-- A history of the sample vehicle, first cycle: a mission cycle at time 1000
that receives the setpoint message `(1000, 1, 1)` and runs both PI controllers. -/
def history_1 : State :=
  (Run sample_deps (sample_state 0 990) (mission_inputs 1000 ⟨1000, 1, 1⟩)).1

/-- Second cycle of the history: at time 11000 the vehicle is switched to manual
mode, reads a full-throttle sample and receives the control-output message
`(11000, 2, 0)`; the setpoint subscription has no new data. -/
def history_2 : State :=
  (Run sample_deps history_1 (manual_switch_inputs 11000 ⟨1, 0⟩ ⟨11000, 2, 0⟩)).1

/-- Third cycle of the history: at time 21000 no subscription has new data. -/
def history_3 : State :=
  (Run sample_deps history_2 (quiet_inputs 21000)).1


/-! ## Single-precision arithmetic for `updateParams` -/

/-- Method `updateParams` (source lines 54-80) with the `float` product of
line 72 and the `float` quotients of line 73 given as `mul` and `div`.
With the exact product and quotient this is `updateParams`; with `f32_mul` and
`f32_div` it is the method in the single-precision arithmetic of the code. -/
def updateParams_with (mul div : ℚ → ℚ → ℚ) (d : Deps) (store : Params) (s : State) : State :=
  let s := { s with params := store }
  let s := { s with
    _angular_velocity_pid :=
      d.pid_set_parameters s._angular_velocity_pid
        s.params.rdd_p_gain_angular_velocity s.params.rdd_i_gain_angular_velocity 0 20 200 }
  let s := { s with
    _speed_pid :=
      d.pid_set_parameters s._speed_pid
        s.params.rdd_p_gain_speed s.params.rdd_i_gain_speed 0 2 200 }
  let s := { s with _max_speed := mul s.params.rdd_max_wheel_speed s.params.rdd_wheel_radius }
  let s := { s with _max_angular_velocity := div s._max_speed (div s.params.rdd_wheel_base 2) }
  let s := { s with
    _differential_drive_kinematics :=
      { s._differential_drive_kinematics with _wheel_base := s.params.rdd_wheel_base } }
  let s := { s with
    _differential_drive_kinematics :=
      { s._differential_drive_kinematics with _max_speed := s._max_speed } }
  let s := { s with
    _differential_guidance_controller :=
      { s._differential_guidance_controller with _max_speed := s._max_speed } }
  let s := { s with
    _differential_drive_kinematics :=
      { s._differential_drive_kinematics with _max_angular_velocity := s._max_angular_velocity } }
  let s := { s with
    _differential_guidance_controller :=
      { s._differential_guidance_controller with
        _max_angular_velocity := s._max_angular_velocity } }
  s

theorem poll_control_output_flags (s : State) (i : Inputs) :
    (poll_control_output s i)._armed = s._armed ∧
    (poll_control_output s i)._manual_driving = s._manual_driving ∧
    (poll_control_output s i)._mission_driving = s._mission_driving ∧
    (poll_control_output s i).params = s.params := by
  unfold poll_control_output
  split
  · cases i.differential_drive_control_output.copy <;> simp
  · simp

theorem poll_setpoint_flags (d : Deps) (s : State) (i : Inputs) (dt : ℚ) :
    (poll_setpoint d s i dt).1._armed = s._armed ∧
    (poll_setpoint d s i dt).1._manual_driving = s._manual_driving ∧
    (poll_setpoint d s i dt).1._mission_driving = s._mission_driving ∧
    (poll_setpoint d s i dt).1.params = s.params := by
  unfold poll_setpoint
  split
  · cases i.differential_drive_setpoint.copy <;> simp
  · simp

theorem arbitrate_flags (d : Deps) (s : State) (i : Inputs) (now : Nat) (dt : ℚ) :
    (arbitrate d s i now dt).1._armed = s._armed ∧
    (arbitrate d s i now dt).1._manual_driving = s._manual_driving ∧
    (arbitrate d s i now dt).1._mission_driving = s._mission_driving ∧
    (arbitrate d s i now dt).1.params = s.params := by
  unfold arbitrate
  split
  · split
    · cases i.manual_control_setpoint.copy <;> simp
    · simp
  · split <;> simp

theorem Run_flags (d : Deps) (s : State) (i : Inputs) :
    (Run d s i).1._armed = (refresh d s i)._armed ∧
    (Run d s i).1._manual_driving = (refresh d s i)._manual_driving ∧
    (Run d s i).1._mission_driving = (refresh d s i)._mission_driving ∧
    (Run d s i).1.params = (refresh d s i).params := by
  simp only [Run]
  obtain ⟨a1, a2, a3, a4⟩ := arbitrate_flags d (refresh d s i) i i.hrt_absolute_time
    (compute_dt d s._time_stamp_last i.hrt_absolute_time)
  obtain ⟨b1, b2, b3, b4⟩ := poll_control_output_flags (arbitrate d (refresh d s i) i
    i.hrt_absolute_time (compute_dt d s._time_stamp_last i.hrt_absolute_time)).1 i
  obtain ⟨c1, c2, c3, c4⟩ := poll_setpoint_flags d (poll_control_output (arbitrate d
    (refresh d s i) i i.hrt_absolute_time
    (compute_dt d s._time_stamp_last i.hrt_absolute_time)).1 i) i
    (compute_dt d s._time_stamp_last i.hrt_absolute_time)
  refine ⟨?_, ?_, ?_, ?_⟩
  · rw [c1, b1, a1]
  · rw [c2, b2, a2]
  · rw [c3, b3, a3]
  · rw [c4, b4, a4]

theorem exit_check_actuator (i : Inputs) : actuator_messages (exit_check i) = [] := by
  unfold exit_check actuator_messages
  split <;> simp

theorem arbitrate_actuator (d : Deps) (s : State) (i : Inputs) (now : Nat) (dt : ℚ) :
    actuator_messages (arbitrate d s i now dt).2 = [] := by
  unfold arbitrate actuator_messages
  split
  · split
    · cases i.manual_control_setpoint.copy <;> simp
    · simp
  · split <;> simp

theorem poll_setpoint_actuator (d : Deps) (s : State) (i : Inputs) (dt : ℚ) :
    actuator_messages (poll_setpoint d s i dt).2 = [] := by
  unfold poll_setpoint actuator_messages
  split <;> simp

theorem actuator_messages_append (a b : List Event) :
    actuator_messages (a ++ b) = actuator_messages a ++ actuator_messages b := by
  simp [actuator_messages]

theorem Run_actuator_messages (d : Deps) (s : State) (i : Inputs) :
    actuator_messages (Run d s i).2 =
      [make_actuator_motors d (Run d s i).1 i.hrt_absolute_time] := by
  simp only [Run, actuator_messages_append, exit_check_actuator, arbitrate_actuator,
    poll_setpoint_actuator]
  simp [actuator_messages]

theorem Run_wheel_commands (d : Deps) (s : State) (i : Inputs) :
    wheel_commands (Run d s i).2 = [final_wheel_speeds d (Run d s i).1 i.hrt_absolute_time] := by
  simp [wheel_commands, Run_actuator_messages, make_actuator_motors]

theorem constrain_zero : constrain2 (0, 0) (-1) 1 = (0, 0) := by
  simp [constrain2, constrain]


theorem final_wheel_speeds_stop (d : Deps) (s : State) (now : Nat)
    (h : (!s._armed || setpoint_timeout s now || !valid_max_speed s) = true) :
    final_wheel_speeds d s now = (0, 0) := by
  unfold final_wheel_speeds
  simp only [h, if_true]
  exact constrain_zero

theorem final_wheel_speeds_go (d : Deps) (s : State) (now : Nat)
    (h : (!s._armed || setpoint_timeout s now || !valid_max_speed s) = false) :
    final_wheel_speeds d s now =
      constrain2 (d.computeInverseKinematics s._differential_drive_kinematics
        (kinematics_input s).1 (kinematics_input s).2) (-1) 1 := by
  unfold final_wheel_speeds
  simp only [h]
  rfl

theorem constrain_bounds (x : ℚ) : -1 ≤ constrain x (-1) 1 ∧ constrain x (-1) 1 ≤ 1 := by
  unfold constrain
  constructor
  · exact le_max_left _ _
  · exact max_le (by norm_num) (min_le_left _ _)


/-! ## Safety and saturation -/

/-- C1: in every control cycle, for every setpoint, controller output, parameter
set and kinematics result, if the armed flag held after the state refresh of the
cycle is false, exactly one actuator message is emitted and both components of
its wheel command are 0. -/
theorem disarmed_wheel_command_zero (d : Deps) (s : State) (i : Inputs)
    (h : (refresh d s i)._armed = false) :
    wheel_commands (Run d s i).2 = [(0, 0)] := by
  have ha : (Run d s i).1._armed = false := by rw [(Run_flags d s i).1, h]
  rw [Run_wheel_commands, final_wheel_speeds_stop]
  simp [ha]

/-- Witness for C1: the sample vehicle receives a disarming mode message at time
1000 while holding the non-zero setpoint `speed = 1`. -/
theorem disarmed_wheel_command_zero_witness :
    (refresh sample_deps (sample_state 1000 990) (mode_inputs 1000 ⟨false, true, false⟩))._armed
        = false ∧
      wheel_commands
        (Run sample_deps (sample_state 1000 990) (mode_inputs 1000 ⟨false, true, false⟩)).2
        = [(0, 0)] :=
  ⟨by decide, disarmed_wheel_command_zero sample_deps (sample_state 1000 990)
    (mode_inputs 1000 ⟨false, true, false⟩) (by decide)⟩

/-- C2: in every control cycle at a 64-bit time `now`, if the age of the setpoint
held after arbitration and the subscription copies (`now` minus its timestamp)
exceeds 100 ms, the emitted wheel command is (0, 0), whatever the arming state,
the mode flags and the manual input are. -/
theorem stale_setpoint_wheel_command_zero (d : Deps) (s : State) (i : Inputs)
    (hnow : i.hrt_absolute_time < 2 ^ 64)
    (hage : setpoint_age (state_at_kinematics d s i) i.hrt_absolute_time > 100000) :
    wheel_commands (Run d s i).2 = [(0, 0)] := by
  have ht : setpoint_timeout (Run d s i).1 i.hrt_absolute_time = true := by
    unfold setpoint_age state_at_kinematics at hage
    unfold setpoint_timeout u64_add hundred_ms UINT64_MOD
    have h1 : (Run d s i).1._differential_drive_setpoint.timestamp + 100000
        < i.hrt_absolute_time := by omega
    have h2 : ((Run d s i).1._differential_drive_setpoint.timestamp + 100000) % 2 ^ 64
        = (Run d s i).1._differential_drive_setpoint.timestamp + 100000 :=
      Nat.mod_eq_of_lt (by omega)
    rw [h2]
    exact decide_eq_true h1
  rw [Run_wheel_commands, final_wheel_speeds_stop]
  simp [ht]

/-- Witness for C2: armed, manual mode, a new full-throttle manual sample, and a
control-output message stamped 0 arriving at time 200001. -/
theorem stale_setpoint_wheel_command_zero_witness :
    (200001 < 2 ^ 64 ∧
      setpoint_age (state_at_kinematics sample_deps (sample_state 0 199000)
        (manual_and_output_inputs 200001 ⟨1, 0⟩ ⟨0, 2, 0⟩)) 200001 > 100000) ∧
      wheel_commands (Run sample_deps (sample_state 0 199000)
        (manual_and_output_inputs 200001 ⟨1, 0⟩ ⟨0, 2, 0⟩)).2 = [(0, 0)] :=
  ⟨⟨by decide, by decide⟩,
    stale_setpoint_wheel_command_zero sample_deps (sample_state 0 199000)
      (manual_and_output_inputs 200001 ⟨1, 0⟩ ⟨0, 2, 0⟩) (by decide) (by decide)⟩

/-- C3: in every control cycle exactly one wheel command is emitted and both of
its components lie in the closed interval from -1 to 1, for every kinematics
result, on the stop path and on the non-stop path. -/
theorem wheel_command_within_unit_interval (d : Deps) (s : State) (i : Inputs) :
    ∃ l r : ℚ, wheel_commands (Run d s i).2 = [(l, r)] ∧
      -1 ≤ l ∧ l ≤ 1 ∧ -1 ≤ r ∧ r ≤ 1 := by
  refine ⟨(final_wheel_speeds d (Run d s i).1 i.hrt_absolute_time).1,
    (final_wheel_speeds d (Run d s i).1 i.hrt_absolute_time).2, ?_, ?_⟩
  · rw [Run_wheel_commands]
  · unfold final_wheel_speeds constrain2
    exact ⟨(constrain_bounds _).1, (constrain_bounds _).2, (constrain_bounds _).1,
      (constrain_bounds _).2⟩


theorem kinematics_calls_append (a b : List Event) :
    kinematics_calls (a ++ b) = kinematics_calls a ++ kinematics_calls b := by
  simp [kinematics_calls]

theorem exit_check_kinematics (i : Inputs) : kinematics_calls (exit_check i) = [] := by
  unfold exit_check kinematics_calls
  split <;> simp

theorem arbitrate_kinematics (d : Deps) (s : State) (i : Inputs) (now : Nat) (dt : ℚ) :
    kinematics_calls (arbitrate d s i now dt).2 = [] := by
  unfold arbitrate kinematics_calls
  split
  · split
    · cases i.manual_control_setpoint.copy <;> simp
    · simp
  · split <;> simp

theorem poll_setpoint_kinematics (d : Deps) (s : State) (i : Inputs) (dt : ℚ) :
    kinematics_calls (poll_setpoint d s i dt).2 = [] := by
  unfold poll_setpoint kinematics_calls
  split <;> simp

theorem Run_kinematics_calls (d : Deps) (s : State) (i : Inputs) :
    kinematics_calls (Run d s i).2 = [kinematics_input (Run d s i).1] := by
  simp only [Run, kinematics_calls_append, exit_check_kinematics, arbitrate_kinematics,
    poll_setpoint_kinematics]
  simp [kinematics_calls]

theorem setpoint_timeout_iff_age (s : State) (now : Nat)
    (hts : s._differential_drive_setpoint.timestamp + 100000 < 2 ^ 64) :
    setpoint_timeout s now = true ↔ setpoint_age s now > 100000 := by
  unfold setpoint_timeout setpoint_age u64_add hundred_ms UINT64_MOD
  rw [Nat.mod_eq_of_lt hts, decide_eq_true_iff]
  omega

theorem final_wheel_speeds_eq_reference (d : Deps) (s : State) (now : Nat)
    (hts : s._differential_drive_setpoint.timestamp + 100000 < 2 ^ 64) :
    final_wheel_speeds d s now = reference_wheel_command d s now := by
  have ht := setpoint_timeout_iff_age s now hts
  unfold reference_wheel_command safety_stage_reference
  by_cases hstop : s._armed = false ∨ setpoint_age s now > 100000 ∨
      s.params.rdd_speed_scale ≤ FLT_EPSILON
  · rw [if_pos hstop]
    apply final_wheel_speeds_stop
    rcases hstop with h | h | h
    · simp [h]
    · simp [ht.2 h]
    · have : valid_max_speed s = false := by
        unfold valid_max_speed
        exact decide_eq_false (not_lt.2 h)
      simp [this]
  · rw [if_neg hstop]
    push_neg at hstop
    obtain ⟨h1, h2, h3⟩ := hstop
    have ha : s._armed = true := by simpa using h1
    have hto : setpoint_timeout s now = false := by
      cases hc : setpoint_timeout s now
      · rfl
      · exact absurd (ht.1 hc) (not_lt.2 h2)
    have hv : valid_max_speed s = true := by
      unfold valid_max_speed
      exact decide_eq_true h3
    rw [final_wheel_speeds_go d s now (by simp [ha, hto, hv])]
    rfl

/-- Counterexample for C4 as stated: the sample vehicle, armed, speed scale 1,
holds a setpoint stamped `2 ^ 64 - 1` at the time `2 ^ 64 - 1`. The setpoint age
is 0, hence at most 100 ms, and the reference gives the clamped kinematics
output (1/2, 1/2); the code wraps `timestamp + 100 ms` to 99999, sees a timeout
and emits (0, 0). -/
theorem safety_stage_reference_counterexample :
    wheel_commands (Run sample_deps (sample_state (2 ^ 64 - 1) (2 ^ 64 - 11))
        (quiet_inputs (2 ^ 64 - 1))).2 = [(0, 0)] ∧
      setpoint_age (state_at_kinematics sample_deps (sample_state (2 ^ 64 - 1) (2 ^ 64 - 11))
        (quiet_inputs (2 ^ 64 - 1))) (2 ^ 64 - 1) = 0 ∧
      reference_wheel_command sample_deps
        (state_at_kinematics sample_deps (sample_state (2 ^ 64 - 1) (2 ^ 64 - 11))
          (quiet_inputs (2 ^ 64 - 1))) (2 ^ 64 - 1) = (1 / 2, 1 / 2) := by
  refine ⟨?_, ?_, ?_⟩
  · rw [Run_wheel_commands, final_wheel_speeds_stop]
    decide
  · decide
  · simp [reference_wheel_command, safety_stage_reference, state_at_kinematics, Run, refresh,
      arbitrate, poll_control_output, poll_setpoint, poll_parameter_update,
      poll_vehicle_control_mode, poll_vehicle_attitude, poll_vehicle_angular_velocity,
      poll_vehicle_local_position, sample_state, quiet_inputs, sample_deps, sample_params,
      setpoint_age, computeInverseKinematics_spec, FLT_EPSILON]
    norm_num

/-- C4 (amended): whenever the timestamp of the setpoint held at the kinematics
step plus 100 ms does not overflow 64 bits, the emitted wheel command equals the
reference definition of the safety and saturation stage: (0, 0) if the vehicle
is not armed, or the setpoint age exceeds 100 ms, or the speed scale is at or
below `FLT_EPSILON`, and otherwise the component-wise clamp to the interval from
-1 to 1 of the kinematics result for setpoint plus PI outputs; the kinematics is
called once with exactly these sums, which are the raw setpoint when both PI
outputs are 0. -/
theorem safety_stage_matches_reference (d : Deps) (s : State) (i : Inputs)
    (hts : (state_at_kinematics d s i)._differential_drive_setpoint.timestamp + 100000
      < 2 ^ 64) :
    wheel_commands (Run d s i).2 =
        [reference_wheel_command d (state_at_kinematics d s i) i.hrt_absolute_time] ∧
      kinematics_calls (Run d s i).2 =
        [((state_at_kinematics d s i)._differential_drive_setpoint.speed +
            (state_at_kinematics d s i)._speed_pid_output,
          (state_at_kinematics d s i)._differential_drive_setpoint.yaw_rate +
            (state_at_kinematics d s i)._angular_velocity_pid_output)] ∧
      ((state_at_kinematics d s i)._speed_pid_output = 0 →
        (state_at_kinematics d s i)._angular_velocity_pid_output = 0 →
        kinematics_calls (Run d s i).2 =
          [((state_at_kinematics d s i)._differential_drive_setpoint.speed,
            (state_at_kinematics d s i)._differential_drive_setpoint.yaw_rate)]) := by
  unfold state_at_kinematics at hts ⊢
  refine ⟨?_, ?_, ?_⟩
  · rw [Run_wheel_commands, final_wheel_speeds_eq_reference d _ _ hts]
  · rw [Run_kinematics_calls]
    rfl
  · intro h1 h2
    rw [Run_kinematics_calls]
    simp [kinematics_input, h1, h2]

/-- Witness for C4 (amended): the sample vehicle, armed, with a setpoint stamped
exactly 100 ms before the cycle time, drives at the clamped kinematics output. -/
theorem safety_stage_matches_reference_witness :
    (state_at_kinematics sample_deps (sample_state 100000 190000)
        (quiet_inputs 200000))._differential_drive_setpoint.timestamp + 100000 < 2 ^ 64 ∧
      wheel_commands (Run sample_deps (sample_state 100000 190000) (quiet_inputs 200000)).2
        = [(1 / 2, 1 / 2)] := by
  refine ⟨by decide, ?_⟩
  have h := (safety_stage_matches_reference sample_deps (sample_state 100000 190000)
    (quiet_inputs 200000) (by decide)).1
  rw [h]
  simp [reference_wheel_command, safety_stage_reference, state_at_kinematics, Run, refresh,
    arbitrate, poll_control_output, poll_setpoint, poll_parameter_update,
    poll_vehicle_control_mode, poll_vehicle_attitude, poll_vehicle_angular_velocity,
    poll_vehicle_local_position, sample_state, quiet_inputs, sample_deps, sample_params,
    setpoint_age, computeInverseKinematics_spec, FLT_EPSILON]
  norm_num


/-! ## Cycle timing -/

theorem u64_sub_eq_emod (a b : Nat) (ha : a < 2 ^ 64) (hb : b < 2 ^ 64) :
    u64_sub a b = (((a : Int) - (b : Int)) % 2 ^ 64).toNat := by
  unfold u64_sub UINT64_MOD
  omega

theorem compute_dt_bounds (d : Deps) (last now : Nat) :
    0 ≤ compute_dt d last now ∧ compute_dt d last now ≤ (d.kTimeoutUs : ℚ) / 1000000 := by
  unfold compute_dt
  constructor
  · positivity
  · apply div_le_div_of_nonneg_right _ (by norm_num)
    exact_mod_cast Nat.min_le_right _ _

theorem dt_arguments_append (a b : List Event) :
    dt_arguments (a ++ b) = dt_arguments a ++ dt_arguments b := by
  simp [dt_arguments]

theorem exit_check_dt (i : Inputs) : dt_arguments (exit_check i) = [] := by
  unfold exit_check dt_arguments
  split <;> simp

theorem arbitrate_dt (d : Deps) (s : State) (i : Inputs) (now : Nat) (dt : ℚ) :
    ∀ t ∈ dt_arguments (arbitrate d s i now dt).2, t = dt := by
  unfold arbitrate dt_arguments
  split
  · split
    · cases i.manual_control_setpoint.copy <;> simp
    · simp
  · split <;> simp

theorem poll_setpoint_dt (d : Deps) (s : State) (i : Inputs) (dt : ℚ) :
    ∀ t ∈ dt_arguments (poll_setpoint d s i dt).2, t = dt := by
  unfold poll_setpoint dt_arguments
  split <;> simp

theorem Run_dt_arguments (d : Deps) (s : State) (i : Inputs) :
    ∀ t ∈ dt_arguments (Run d s i).2, t = compute_dt d s._time_stamp_last i.hrt_absolute_time := by
  intro t ht
  simp only [Run, dt_arguments_append, exit_check_dt, List.nil_append, List.mem_append] at ht
  rcases ht with (h | h) | h
  · exact arbitrate_dt _ _ _ _ _ t h
  · exact poll_setpoint_dt _ _ _ _ t h
  · simp [dt_arguments] at h

/-- C5: for 64-bit times `now` and `_time_stamp_last`, the `dt` of the cycle is
the minimum of `(now - _time_stamp_last) mod 2 ^ 64` and `kTimeoutUs`, divided
by `10 ^ 6`; it lies between 0 and `kTimeoutUs / 10 ^ 6`; and every `dt` argument
handed to `computeGuidance` or `pid_calculate` in the cycle is this value. -/
theorem dt_is_clamped_elapsed_time (d : Deps) (s : State) (i : Inputs)
    (hlast : s._time_stamp_last < 2 ^ 64) (hnow : i.hrt_absolute_time < 2 ^ 64) :
    compute_dt d s._time_stamp_last i.hrt_absolute_time =
        ((min ((((i.hrt_absolute_time : Int) - (s._time_stamp_last : Int)) % 2 ^ 64).toNat)
          d.kTimeoutUs : Nat) : ℚ) / 10 ^ 6 ∧
      0 ≤ compute_dt d s._time_stamp_last i.hrt_absolute_time ∧
      compute_dt d s._time_stamp_last i.hrt_absolute_time ≤ (d.kTimeoutUs : ℚ) / 10 ^ 6 ∧
      ∀ t ∈ dt_arguments (Run d s i).2,
        t = compute_dt d s._time_stamp_last i.hrt_absolute_time := by
  refine ⟨?_, (compute_dt_bounds d _ _).1, ?_, Run_dt_arguments d s i⟩
  · unfold compute_dt
    rw [u64_sub_eq_emod _ _ hnow hlast]
    norm_num
  · have := (compute_dt_bounds d s._time_stamp_last i.hrt_absolute_time).2
    norm_num at this ⊢
    exact this


/-- Witness for C5: a pause of almost 1000 seconds before a mission cycle with a
new setpoint message; `dt` is the ceiling, 5000 microseconds, and it is the `dt`
argument of the guidance call and of both PID calls. -/
theorem dt_is_clamped_elapsed_time_witness :
    ((sample_state 0 1000)._time_stamp_last < 2 ^ 64 ∧
        (mission_inputs 1000000000 ⟨1000000000, 1, 1⟩).hrt_absolute_time < 2 ^ 64) ∧
      dt_arguments
          (Run sample_deps (sample_state 0 1000) (mission_inputs 1000000000 ⟨1000000000, 1, 1⟩)).2
        = [1 / 200, 1 / 200, 1 / 200] ∧
      (1 / 200 : ℚ) = compute_dt sample_deps (sample_state 0 1000)._time_stamp_last
        (mission_inputs 1000000000 ⟨1000000000, 1, 1⟩).hrt_absolute_time := by
  have hd : dt_arguments
      (Run sample_deps (sample_state 0 1000) (mission_inputs 1000000000 ⟨1000000000, 1, 1⟩)).2
      = [1 / 200, 1 / 200, 1 / 200] := by
    simp [dt_arguments, Run, exit_check, arbitrate, poll_setpoint, poll_control_output, refresh,
      poll_parameter_update, poll_vehicle_control_mode, poll_vehicle_attitude,
      poll_vehicle_angular_velocity, poll_vehicle_local_position, mission_inputs, quiet_inputs,
      sample_state, sample_deps, compute_dt, u64_sub, UINT64_MOD]
    norm_num
  refine ⟨⟨by decide, by decide⟩, hd, ?_⟩
  exact (dt_is_clamped_elapsed_time sample_deps (sample_state 0 1000)
    (mission_inputs 1000000000 ⟨1000000000, 1, 1⟩) (by decide) (by decide)).2.2.2 (1 / 200)
    (by rw [hd]; simp)

/-! ## Arbitration -/

/-- C6: in every cycle in which manual mode is active after the state refresh
and a new manual sample `m` is read, the setpoint right after arbitration has
`speed = throttle * speedScale * maxSpeed`, `yaw_rate = turn * angularScale *
maxAngularVelocity` and `timestamp = now`; the previous setpoint does not enter. -/
theorem manual_sample_sets_setpoint (d : Deps) (s : State) (i : Inputs)
    (m : manual_control_setpoint_s)
    (hman : (refresh d s i)._manual_driving = true)
    (hupd : i.manual_control_setpoint.updated = true)
    (hcopy : i.manual_control_setpoint.copy = some m) :
    (state_after_arbitration d s i)._differential_drive_setpoint =
      { timestamp := i.hrt_absolute_time
        speed := m.throttle * (refresh d s i).params.rdd_speed_scale * (refresh d s i)._max_speed
        yaw_rate := m.roll * (refresh d s i).params.rdd_ang_velocity_scale *
          (refresh d s i)._max_angular_velocity } := by
  unfold state_after_arbitration arbitrate
  simp [hman, hupd, hcopy]


/-- Witness for C6: throttle 1, turn 0, speed scale 1, maximum speed 2 give the
setpoint speed 2 and yaw rate 0, stamped with the cycle time. -/
theorem manual_sample_sets_setpoint_witness :
    ((refresh sample_deps (sample_state 0 990) (manual_inputs 1000 ⟨1, 0⟩))._manual_driving = true ∧
        (manual_inputs 1000 ⟨1, 0⟩).manual_control_setpoint.updated = true ∧
        (manual_inputs 1000 ⟨1, 0⟩).manual_control_setpoint.copy = some ⟨1, 0⟩) ∧
      (state_after_arbitration sample_deps (sample_state 0 990)
        (manual_inputs 1000 ⟨1, 0⟩))._differential_drive_setpoint = ⟨1000, 2, 0⟩ := by
  refine ⟨⟨by decide, by decide, by decide⟩, ?_⟩
  rw [manual_sample_sets_setpoint sample_deps (sample_state 0 990) (manual_inputs 1000 ⟨1, 0⟩)
    ⟨1, 0⟩ (by decide) (by decide) (by decide)]
  simp [refresh, poll_parameter_update, poll_vehicle_control_mode, poll_vehicle_attitude,
    poll_vehicle_angular_velocity, poll_vehicle_local_position, manual_inputs, quiet_inputs,
    sample_state, sample_params]

theorem guidance_calls_append (a b : List Event) :
    guidance_calls (a ++ b) = guidance_calls a ++ guidance_calls b := by
  simp [guidance_calls]

theorem exit_check_guidance (i : Inputs) : guidance_calls (exit_check i) = [] := by
  unfold exit_check guidance_calls
  split <;> simp

theorem poll_setpoint_guidance (d : Deps) (s : State) (i : Inputs) (dt : ℚ) :
    guidance_calls (poll_setpoint d s i dt).2 = [] := by
  unfold poll_setpoint guidance_calls
  split <;> simp

theorem Run_guidance_calls (d : Deps) (s : State) (i : Inputs) :
    guidance_calls (Run d s i).2 =
      guidance_calls (arbitrate d (refresh d s i) i i.hrt_absolute_time
        (compute_dt d s._time_stamp_last i.hrt_absolute_time)).2 := by
  simp only [Run, guidance_calls_append, exit_check_guidance, poll_setpoint_guidance]
  simp [guidance_calls]

theorem setpoint_publications_append (a b : List Event) :
    setpoint_publications (a ++ b) = setpoint_publications a ++ setpoint_publications b := by
  simp [setpoint_publications]

theorem exit_check_publications (i : Inputs) : setpoint_publications (exit_check i) = [] := by
  unfold exit_check setpoint_publications
  split <;> simp

theorem poll_setpoint_publications (d : Deps) (s : State) (i : Inputs) (dt : ℚ) :
    setpoint_publications (poll_setpoint d s i dt).2 = [] := by
  unfold poll_setpoint setpoint_publications
  split <;> simp

theorem Run_setpoint_publications (d : Deps) (s : State) (i : Inputs) :
    setpoint_publications (Run d s i).2 =
      setpoint_publications (arbitrate d (refresh d s i) i i.hrt_absolute_time
        (compute_dt d s._time_stamp_last i.hrt_absolute_time)).2 := by
  simp only [Run, setpoint_publications_append, exit_check_publications,
    poll_setpoint_publications]
  simp [setpoint_publications]

theorem arbitrate_manual (d : Deps) (s : State) (i : Inputs) (now : Nat) (dt : ℚ)
    (h : s._manual_driving = true) :
    guidance_calls (arbitrate d s i now dt).2 = [] ∧
    setpoint_publications (arbitrate d s i now dt).2 = [] ∧
    (arbitrate d s i now dt).1._differential_guidance_controller
      = s._differential_guidance_controller ∧
    ((arbitrate d s i now dt).1._differential_drive_setpoint = s._differential_drive_setpoint ∨
      ∃ m, i.manual_control_setpoint.updated = true ∧ i.manual_control_setpoint.copy = some m ∧
        (arbitrate d s i now dt).1._differential_drive_setpoint =
          { timestamp := now
            speed := m.throttle * s.params.rdd_speed_scale * s._max_speed
            yaw_rate := m.roll * s.params.rdd_ang_velocity_scale * s._max_angular_velocity }) := by
  unfold arbitrate guidance_calls setpoint_publications
  rw [if_pos h]
  by_cases hu : i.manual_control_setpoint.updated = true
  · rw [if_pos hu]
    cases hc : i.manual_control_setpoint.copy with
    | none => simp
    | some m => simp [hu]
  · rw [if_neg hu]
    simp

theorem arbitrate_mission (d : Deps) (s : State) (i : Inputs) (now : Nat) (dt : ℚ)
    (hman : s._manual_driving = false) (hmis : s._mission_driving = true) :
    arbitrate d s i now dt =
      ({ s with
          _differential_guidance_controller :=
            (d.computeGuidance s._differential_guidance_controller s._vehicle_yaw
              s._vehicle_angular_velocity.xyz.z dt).1
          _differential_drive_setpoint :=
            { timestamp := now
              speed := (d.computeGuidance s._differential_guidance_controller s._vehicle_yaw
                s._vehicle_angular_velocity.xyz.z dt).2.1
              yaw_rate := (d.computeGuidance s._differential_guidance_controller s._vehicle_yaw
                s._vehicle_angular_velocity.xyz.z dt).2.2 } },
       [Event.computeGuidance s._vehicle_yaw s._vehicle_angular_velocity.xyz.z dt,
        Event.publish_setpoint
          { timestamp := now
            speed := (d.computeGuidance s._differential_guidance_controller s._vehicle_yaw
              s._vehicle_angular_velocity.xyz.z dt).2.1
            yaw_rate := (d.computeGuidance s._differential_guidance_controller s._vehicle_yaw
              s._vehicle_angular_velocity.xyz.z dt).2.2 }]) := by
  unfold arbitrate
  simp [hman, hmis]

theorem arbitrate_idle (d : Deps) (s : State) (i : Inputs) (now : Nat) (dt : ℚ)
    (hman : s._manual_driving = false) (hmis : s._mission_driving = false) :
    arbitrate d s i now dt = (s, []) := by
  unfold arbitrate
  simp [hman, hmis]

/-- C7: in every cycle in which, after the state refresh, manual mode is
inactive and mission mode is active, `computeGuidance` is called exactly once,
with the current yaw, the measured angular velocity about the vertical axis and
the clamped `dt`, and the setpoint right after arbitration is the returned pair,
unscaled and unclamped, stamped with `now`. -/
theorem mission_takes_guidance_verbatim (d : Deps) (s : State) (i : Inputs)
    (hman : (refresh d s i)._manual_driving = false)
    (hmis : (refresh d s i)._mission_driving = true) :
    guidance_calls (Run d s i).2 =
        [((refresh d s i)._vehicle_yaw, (refresh d s i)._vehicle_angular_velocity.xyz.z,
          compute_dt d s._time_stamp_last i.hrt_absolute_time)] ∧
      (state_after_arbitration d s i)._differential_drive_setpoint =
        { timestamp := i.hrt_absolute_time
          speed := (d.computeGuidance (refresh d s i)._differential_guidance_controller
            (refresh d s i)._vehicle_yaw (refresh d s i)._vehicle_angular_velocity.xyz.z
            (compute_dt d s._time_stamp_last i.hrt_absolute_time)).2.1
          yaw_rate := (d.computeGuidance (refresh d s i)._differential_guidance_controller
            (refresh d s i)._vehicle_yaw (refresh d s i)._vehicle_angular_velocity.xyz.z
            (compute_dt d s._time_stamp_last i.hrt_absolute_time)).2.2 } := by
  unfold state_after_arbitration
  rw [Run_guidance_calls, arbitrate_mission d _ i _ _ hman hmis]
  simp [guidance_calls]

/-- Witness for C7: the sample vehicle is switched to mission mode; the guidance
black box of the sample answers (1, 1). -/
theorem mission_takes_guidance_verbatim_witness :
    ((refresh sample_deps (sample_state 0 990)
          (mode_inputs 1000 ⟨true, false, true⟩))._manual_driving = false ∧
        (refresh sample_deps (sample_state 0 990)
          (mode_inputs 1000 ⟨true, false, true⟩))._mission_driving = true) ∧
      guidance_calls (Run sample_deps (sample_state 0 990)
        (mode_inputs 1000 ⟨true, false, true⟩)).2 =
        [((refresh sample_deps (sample_state 0 990)
            (mode_inputs 1000 ⟨true, false, true⟩))._vehicle_yaw,
          (refresh sample_deps (sample_state 0 990)
            (mode_inputs 1000 ⟨true, false, true⟩))._vehicle_angular_velocity.xyz.z,
          compute_dt sample_deps (sample_state 0 990)._time_stamp_last
            (mode_inputs 1000 ⟨true, false, true⟩).hrt_absolute_time)] :=
  ⟨⟨by decide, by decide⟩,
    (mission_takes_guidance_verbatim sample_deps (sample_state 0 990)
      (mode_inputs 1000 ⟨true, false, true⟩) (by decide) (by decide)).1⟩

/-- C8: `computeGuidance` is called in a cycle if and only if, after the state
refresh, the mission flag is active and the manual flag is inactive; whenever
the manual flag is active (in particular when both flags are) there is no
guidance call, no publication by the mission branch, the guidance object is
untouched, and the setpoint after arbitration is either the previous one or the
one computed from a new manual sample. -/
theorem guidance_called_iff_mission_not_manual (d : Deps) (s : State) (i : Inputs) :
    (guidance_calls (Run d s i).2 ≠ [] ↔
        ((refresh d s i)._mission_driving = true ∧ (refresh d s i)._manual_driving = false)) ∧
      ((refresh d s i)._manual_driving = true →
        guidance_calls (Run d s i).2 = [] ∧
        setpoint_publications (Run d s i).2 = [] ∧
        (state_after_arbitration d s i)._differential_guidance_controller
          = (refresh d s i)._differential_guidance_controller ∧
        ((state_after_arbitration d s i)._differential_drive_setpoint
            = (refresh d s i)._differential_drive_setpoint ∨
          ∃ m, i.manual_control_setpoint.updated = true ∧
            i.manual_control_setpoint.copy = some m ∧
            (state_after_arbitration d s i)._differential_drive_setpoint =
              { timestamp := i.hrt_absolute_time
                speed := m.throttle * (refresh d s i).params.rdd_speed_scale *
                  (refresh d s i)._max_speed
                yaw_rate := m.roll * (refresh d s i).params.rdd_ang_velocity_scale *
                  (refresh d s i)._max_angular_velocity })) := by
  constructor
  · rw [Run_guidance_calls]
    cases hman : (refresh d s i)._manual_driving
    · cases hmis : (refresh d s i)._mission_driving
      · rw [arbitrate_idle d _ i _ _ hman hmis]
        simp [guidance_calls]
      · rw [arbitrate_mission d _ i _ _ hman hmis]
        simp [guidance_calls]
    · rw [(arbitrate_manual d _ i _ _ hman).1]
      simp
  · intro hman
    rw [Run_guidance_calls, Run_setpoint_publications]
    exact arbitrate_manual d _ i _ _ hman

/-- Witness for C8: both the manual and the mission flag are set by the mode
message; no guidance call is made. -/
theorem guidance_called_iff_mission_not_manual_witness :
    (refresh sample_deps (sample_state 0 990)
        (mode_inputs 1000 ⟨true, true, true⟩))._manual_driving = true ∧
      (refresh sample_deps (sample_state 0 990)
        (mode_inputs 1000 ⟨true, true, true⟩))._mission_driving = true ∧
      guidance_calls (Run sample_deps (sample_state 0 990)
        (mode_inputs 1000 ⟨true, true, true⟩)).2 = [] :=
  ⟨by decide, by decide,
    ((guidance_called_iff_mission_not_manual sample_deps (sample_state 0 990)
      (mode_inputs 1000 ⟨true, true, true⟩)).2 (by decide)).1⟩


/-! ## Subscription copies and the PI controllers -/

theorem pid_calls_append (a b : List Event) :
    pid_calls (a ++ b) = pid_calls a ++ pid_calls b := by
  simp [pid_calls]

theorem exit_check_pid (i : Inputs) : pid_calls (exit_check i) = [] := by
  unfold exit_check pid_calls
  split <;> simp

theorem arbitrate_pid (d : Deps) (s : State) (i : Inputs) (now : Nat) (dt : ℚ) :
    pid_calls (arbitrate d s i now dt).2 = [] ∧
    (arbitrate d s i now dt).1._speed_pid = s._speed_pid ∧
    (arbitrate d s i now dt).1._angular_velocity_pid = s._angular_velocity_pid := by
  unfold arbitrate pid_calls
  split
  · split
    · cases i.manual_control_setpoint.copy <;> simp
    · simp
  · split <;> simp

theorem poll_control_output_pid (s : State) (i : Inputs) :
    (poll_control_output s i)._speed_pid = s._speed_pid ∧
    (poll_control_output s i)._angular_velocity_pid = s._angular_velocity_pid := by
  unfold poll_control_output
  split
  · cases i.differential_drive_control_output.copy <;> simp
  · simp

theorem poll_control_output_updated (s : State) (i : Inputs)
    (h : i.differential_drive_control_output.updated = true) :
    (poll_control_output s i)._speed_pid_output = 0 ∧
    (poll_control_output s i)._angular_velocity_pid_output = 0 ∧
    (∀ m, i.differential_drive_control_output.copy = some m →
      (poll_control_output s i)._differential_drive_setpoint = m) := by
  unfold poll_control_output
  rw [if_pos h]
  refine ⟨rfl, rfl, ?_⟩
  intro m hm
  simp [hm]

theorem poll_setpoint_not_updated (d : Deps) (s : State) (i : Inputs) (dt : ℚ)
    (h : i.differential_drive_setpoint.updated = false) :
    poll_setpoint d s i dt = (s, []) := by
  unfold poll_setpoint
  simp [h]

theorem poll_setpoint_setpoint (d : Deps) (s : State) (i : Inputs) (dt : ℚ) :
    (poll_setpoint d s i dt).1._differential_drive_setpoint =
      if i.differential_drive_setpoint.updated = true then
        match i.differential_drive_setpoint.copy with
        | some m => m
        | none => s._differential_drive_setpoint
      else s._differential_drive_setpoint := by
  unfold poll_setpoint
  split
  · cases i.differential_drive_setpoint.copy <;> simp
  · simp

/-- Counterexample for C9 as stated. First cycle: the sample vehicle, whose two
PID states hold the integral 1, stays in manual mode, reads a manual sample and
receives a new control-output message; after the cycle both integral terms are
still 1. Second cycle: the mode flags switch from manual to mission, no setpoint
message arrives; both integral terms are still 1. -/
theorem integral_reset_counterexample :
    ((manual_and_output_inputs 1000 ⟨1, 0⟩ ⟨1000, 2, 0⟩).differential_drive_control_output
          = ⟨true, some ⟨1000, 2, 0⟩⟩ ∧
        (Run sample_deps (sample_state 0 990)
          (manual_and_output_inputs 1000 ⟨1, 0⟩ ⟨1000, 2, 0⟩)).1._speed_pid.integral = 1 ∧
        (Run sample_deps (sample_state 0 990)
          (manual_and_output_inputs 1000 ⟨1, 0⟩ ⟨1000, 2, 0⟩)).1._angular_velocity_pid.integral
          = 1) ∧
      ((sample_state 0 990)._manual_driving = true ∧
        (Run sample_deps (sample_state 0 990)
          (mode_inputs 1000 ⟨true, false, true⟩)).1._manual_driving = false ∧
        (Run sample_deps (sample_state 0 990)
          (mode_inputs 1000 ⟨true, false, true⟩)).1._mission_driving = true ∧
        (Run sample_deps (sample_state 0 990)
          (mode_inputs 1000 ⟨true, false, true⟩)).1._speed_pid.integral = 1 ∧
        (Run sample_deps (sample_state 0 990)
          (mode_inputs 1000 ⟨true, false, true⟩)).1._angular_velocity_pid.integral = 1) := by
  refine ⟨⟨rfl, ?_, ?_⟩, ⟨rfl, by decide, by decide, ?_, ?_⟩⟩ <;>
    simp [Run, poll_setpoint, poll_control_output, arbitrate, refresh, poll_parameter_update,
      poll_vehicle_control_mode, poll_vehicle_attitude, poll_vehicle_angular_velocity,
      poll_vehicle_local_position, manual_and_output_inputs, mode_inputs, quiet_inputs,
      sample_state, sample_pid, sample_deps]

/-- Counterexample for C10 as stated: in a mission cycle at time 1000 the
control-output subscription delivers the override `(1000, 1/2, 0)` and the
setpoint subscription delivers `(1000, 1, 1)`; the setpoint held at the
kinematics step is `(1000, 1, 1)`, not the override. -/
theorem override_honoured_counterexample :
    (override_and_setpoint_inputs 1000 ⟨1000, 1 / 2, 0⟩
        ⟨1000, 1, 1⟩).differential_drive_control_output = ⟨true, some ⟨1000, 1 / 2, 0⟩⟩ ∧
      (state_at_kinematics sample_deps (sample_state 0 990)
        (override_and_setpoint_inputs 1000 ⟨1000, 1 / 2, 0⟩
          ⟨1000, 1, 1⟩))._differential_drive_setpoint = ⟨1000, 1, 1⟩ ∧
      (⟨1000, 1, 1⟩ : differential_drive_setpoint_s) ≠ ⟨1000, 1 / 2, 0⟩ := by
  refine ⟨rfl, ?_, ?_⟩
  · simp [state_at_kinematics, Run, poll_setpoint, override_and_setpoint_inputs, quiet_inputs]
  · simp

/-- C10 (amended): in every cycle in which a new message arrives on the
control-output subscription and no message is copied from the setpoint
subscription, the setpoint held at the kinematics step is exactly that message
(speed, yaw rate and timestamp), whatever the mode flags are and whatever the
manual or mission branch wrote earlier in the cycle; a message copied from the
setpoint subscription in the same cycle is the one held instead. -/
theorem override_honoured_without_setpoint_message (d : Deps) (s : State) (i : Inputs)
    (m : differential_drive_setpoint_s)
    (hu : i.differential_drive_control_output.updated = true)
    (hc : i.differential_drive_control_output.copy = some m) :
    ((i.differential_drive_setpoint.updated = false ∨ i.differential_drive_setpoint.copy = none) →
        (state_at_kinematics d s i)._differential_drive_setpoint = m) ∧
      (∀ m2, i.differential_drive_setpoint.updated = true →
        i.differential_drive_setpoint.copy = some m2 →
        (state_at_kinematics d s i)._differential_drive_setpoint = m2) := by
  unfold state_at_kinematics
  simp only [Run]
  rw [poll_setpoint_setpoint]
  have hm := (poll_control_output_updated (arbitrate d (refresh d s i) i
    i.hrt_absolute_time (compute_dt d s._time_stamp_last i.hrt_absolute_time)).1 i hu).2.2 m hc
  constructor
  · rintro (h | h)
    · simp [h, hm]
    · simp [h, hm]
  · intro m2 h1 h2
    simp [h1, h2]

/-- Witness for C10 (amended): a manual cycle in which the manual branch writes
the setpoint `(1000, 2, 0)` and the control-output subscription then delivers
`(1000, 1/2, 0)`, which is the setpoint held at the kinematics step. -/
theorem override_honoured_without_setpoint_message_witness :
    ((manual_and_output_inputs 1000 ⟨1, 0⟩
          ⟨1000, 1 / 2, 0⟩).differential_drive_control_output.updated = true ∧
        (manual_and_output_inputs 1000 ⟨1, 0⟩
          ⟨1000, 1 / 2, 0⟩).differential_drive_control_output.copy = some ⟨1000, 1 / 2, 0⟩ ∧
        (manual_and_output_inputs 1000 ⟨1, 0⟩
          ⟨1000, 1 / 2, 0⟩).differential_drive_setpoint.updated = false) ∧
      (state_at_kinematics sample_deps (sample_state 0 990)
        (manual_and_output_inputs 1000 ⟨1, 0⟩
          ⟨1000, 1 / 2, 0⟩))._differential_drive_setpoint = ⟨1000, 1 / 2, 0⟩ :=
  ⟨⟨rfl, rfl, rfl⟩,
    (override_honoured_without_setpoint_message sample_deps (sample_state 0 990)
      (manual_and_output_inputs 1000 ⟨1, 0⟩ ⟨1000, 1 / 2, 0⟩) ⟨1000, 1 / 2, 0⟩ rfl rfl).1
      (Or.inl rfl)⟩

/-! ## Frame properties of the stages -/

theorem poll_parameter_update_frame (d : Deps) (s : State) (i : Inputs) :
    (poll_parameter_update d s i)._differential_drive_setpoint = s._differential_drive_setpoint ∧
    (poll_parameter_update d s i)._speed_pid_output = s._speed_pid_output ∧
    (poll_parameter_update d s i)._angular_velocity_pid_output = s._angular_velocity_pid_output ∧
    (poll_parameter_update d s i)._armed = s._armed ∧
    (poll_parameter_update d s i)._manual_driving = s._manual_driving ∧
    (poll_parameter_update d s i)._mission_driving = s._mission_driving := by
  unfold poll_parameter_update updateParams
  split <;> simp

theorem poll_parameter_update_pid (d : Deps) (s : State) (i : Inputs) :
    (poll_parameter_update d s i)._speed_pid =
      (if i.parameter_update_updated = true then
        d.pid_set_parameters s._speed_pid i.param_store.rdd_p_gain_speed
          i.param_store.rdd_i_gain_speed 0 2 200
      else s._speed_pid) ∧
    (poll_parameter_update d s i)._angular_velocity_pid =
      (if i.parameter_update_updated = true then
        d.pid_set_parameters s._angular_velocity_pid i.param_store.rdd_p_gain_angular_velocity
          i.param_store.rdd_i_gain_angular_velocity 0 20 200
      else s._angular_velocity_pid) := by
  unfold poll_parameter_update updateParams
  split <;> simp

theorem poll_vehicle_control_mode_frame (s : State) (i : Inputs) :
    (poll_vehicle_control_mode s i)._differential_drive_setpoint = s._differential_drive_setpoint ∧
    (poll_vehicle_control_mode s i)._speed_pid_output = s._speed_pid_output ∧
    (poll_vehicle_control_mode s i)._angular_velocity_pid_output
      = s._angular_velocity_pid_output ∧
    (poll_vehicle_control_mode s i)._speed_pid = s._speed_pid ∧
    (poll_vehicle_control_mode s i)._angular_velocity_pid = s._angular_velocity_pid ∧
    (poll_vehicle_control_mode s i).params = s.params ∧
    (poll_vehicle_control_mode s i)._differential_drive_kinematics
      = s._differential_drive_kinematics := by
  unfold poll_vehicle_control_mode
  split
  · cases i.vehicle_control_mode.copy <;> simp
  · simp

theorem poll_vehicle_attitude_frame (d : Deps) (s : State) (i : Inputs) :
    (poll_vehicle_attitude d s i)._differential_drive_setpoint = s._differential_drive_setpoint ∧
    (poll_vehicle_attitude d s i)._speed_pid_output = s._speed_pid_output ∧
    (poll_vehicle_attitude d s i)._angular_velocity_pid_output
      = s._angular_velocity_pid_output ∧
    (poll_vehicle_attitude d s i)._speed_pid = s._speed_pid ∧
    (poll_vehicle_attitude d s i)._angular_velocity_pid = s._angular_velocity_pid ∧
    (poll_vehicle_attitude d s i).params = s.params ∧
    (poll_vehicle_attitude d s i)._differential_drive_kinematics
      = s._differential_drive_kinematics := by
  unfold poll_vehicle_attitude
  split
  · cases i.vehicle_attitude.copy <;> simp
  · simp

theorem poll_vehicle_angular_velocity_frame (s : State) (i : Inputs) :
    (poll_vehicle_angular_velocity s i)._differential_drive_setpoint
      = s._differential_drive_setpoint ∧
    (poll_vehicle_angular_velocity s i)._speed_pid_output = s._speed_pid_output ∧
    (poll_vehicle_angular_velocity s i)._angular_velocity_pid_output
      = s._angular_velocity_pid_output ∧
    (poll_vehicle_angular_velocity s i)._speed_pid = s._speed_pid ∧
    (poll_vehicle_angular_velocity s i)._angular_velocity_pid = s._angular_velocity_pid ∧
    (poll_vehicle_angular_velocity s i).params = s.params ∧
    (poll_vehicle_angular_velocity s i)._differential_drive_kinematics
      = s._differential_drive_kinematics := by
  unfold poll_vehicle_angular_velocity
  split
  · cases i.vehicle_angular_velocity.copy <;> simp
  · simp

theorem poll_vehicle_local_position_frame (d : Deps) (s : State) (i : Inputs) :
    (poll_vehicle_local_position d s i)._differential_drive_setpoint
      = s._differential_drive_setpoint ∧
    (poll_vehicle_local_position d s i)._speed_pid_output = s._speed_pid_output ∧
    (poll_vehicle_local_position d s i)._angular_velocity_pid_output
      = s._angular_velocity_pid_output ∧
    (poll_vehicle_local_position d s i)._speed_pid = s._speed_pid ∧
    (poll_vehicle_local_position d s i)._angular_velocity_pid = s._angular_velocity_pid ∧
    (poll_vehicle_local_position d s i).params = s.params ∧
    (poll_vehicle_local_position d s i)._differential_drive_kinematics
      = s._differential_drive_kinematics := by
  unfold poll_vehicle_local_position
  split
  · cases i.vehicle_local_position.copy <;> simp
  · simp

theorem refresh_frame (d : Deps) (s : State) (i : Inputs) :
    (refresh d s i)._differential_drive_setpoint = s._differential_drive_setpoint ∧
    (refresh d s i)._speed_pid_output = s._speed_pid_output ∧
    (refresh d s i)._angular_velocity_pid_output = s._angular_velocity_pid_output := by
  unfold refresh
  simp only [(poll_vehicle_local_position_frame d _ i).1,
    (poll_vehicle_local_position_frame d _ i).2.1, (poll_vehicle_local_position_frame d _ i).2.2.1,
    (poll_vehicle_angular_velocity_frame _ i).1, (poll_vehicle_angular_velocity_frame _ i).2.1,
    (poll_vehicle_angular_velocity_frame _ i).2.2.1,
    (poll_vehicle_attitude_frame d _ i).1, (poll_vehicle_attitude_frame d _ i).2.1,
    (poll_vehicle_attitude_frame d _ i).2.2.1,
    (poll_vehicle_control_mode_frame _ i).1, (poll_vehicle_control_mode_frame _ i).2.1,
    (poll_vehicle_control_mode_frame _ i).2.2.1,
    (poll_parameter_update_frame d _ i).1, (poll_parameter_update_frame d _ i).2.1,
    (poll_parameter_update_frame d _ i).2.2.1]
  exact ⟨trivial, trivial, trivial⟩

theorem refresh_pid (d : Deps) (s : State) (i : Inputs) :
    (refresh d s i)._speed_pid =
      (if i.parameter_update_updated = true then
        d.pid_set_parameters s._speed_pid i.param_store.rdd_p_gain_speed
          i.param_store.rdd_i_gain_speed 0 2 200
      else s._speed_pid) ∧
    (refresh d s i)._angular_velocity_pid =
      (if i.parameter_update_updated = true then
        d.pid_set_parameters s._angular_velocity_pid i.param_store.rdd_p_gain_angular_velocity
          i.param_store.rdd_i_gain_angular_velocity 0 20 200
      else s._angular_velocity_pid) := by
  unfold refresh
  simp only [(poll_vehicle_local_position_frame d _ i).2.2.2.1,
    (poll_vehicle_local_position_frame d _ i).2.2.2.2.1,
    (poll_vehicle_angular_velocity_frame _ i).2.2.2.1,
    (poll_vehicle_angular_velocity_frame _ i).2.2.2.2.1,
    (poll_vehicle_attitude_frame d _ i).2.2.2.1, (poll_vehicle_attitude_frame d _ i).2.2.2.2.1,
    (poll_vehicle_control_mode_frame _ i).2.2.2.1,
    (poll_vehicle_control_mode_frame _ i).2.2.2.2.1]
  exact poll_parameter_update_pid d _ i

theorem Run_fst (d : Deps) (s : State) (i : Inputs) :
    (Run d s i).1 =
      (poll_setpoint d (poll_control_output (state_after_arbitration d s i) i) i
        (compute_dt d s._time_stamp_last i.hrt_absolute_time)).1 := rfl

theorem arbitrate_frame (d : Deps) (s : State) (i : Inputs) (now : Nat) (dt : ℚ) :
    (arbitrate d s i now dt).1._speed_pid_output = s._speed_pid_output ∧
    (arbitrate d s i now dt).1._angular_velocity_pid_output = s._angular_velocity_pid_output ∧
    (arbitrate d s i now dt).1._differential_drive_kinematics
      = s._differential_drive_kinematics ∧
    (arbitrate d s i now dt).1._velocity_in_body_frame = s._velocity_in_body_frame ∧
    (arbitrate d s i now dt).1._vehicle_angular_velocity = s._vehicle_angular_velocity := by
  unfold arbitrate
  split
  · split
    · cases i.manual_control_setpoint.copy <;> simp
    · simp
  · split <;> simp

theorem poll_control_output_setpoint (s : State) (i : Inputs) :
    (poll_control_output s i)._differential_drive_setpoint =
      if i.differential_drive_control_output.updated = true then
        match i.differential_drive_control_output.copy with
        | some m => m
        | none => s._differential_drive_setpoint
      else s._differential_drive_setpoint := by
  unfold poll_control_output
  split
  · cases i.differential_drive_control_output.copy <;> simp
  · simp

theorem poll_control_output_frame (s : State) (i : Inputs) :
    (poll_control_output s i)._differential_drive_kinematics
      = s._differential_drive_kinematics ∧
    (poll_control_output s i)._velocity_in_body_frame = s._velocity_in_body_frame ∧
    (poll_control_output s i)._vehicle_angular_velocity = s._vehicle_angular_velocity := by
  unfold poll_control_output
  split
  · cases i.differential_drive_control_output.copy <;> simp
  · simp

theorem poll_control_output_not_updated (s : State) (i : Inputs)
    (h : i.differential_drive_control_output.updated = false) :
    poll_control_output s i = s := by
  unfold poll_control_output
  simp [h]

theorem poll_setpoint_frame (d : Deps) (s : State) (i : Inputs) (dt : ℚ) :
    (poll_setpoint d s i dt).1._differential_drive_kinematics
      = s._differential_drive_kinematics := by
  unfold poll_setpoint
  split
  · cases i.differential_drive_setpoint.copy <;> simp
  · simp

theorem Run_setpoint (d : Deps) (s : State) (i : Inputs) :
    (Run d s i).1._differential_drive_setpoint =
      if i.differential_drive_setpoint.updated = true then
        match i.differential_drive_setpoint.copy with
        | some m => m
        | none =>
          if i.differential_drive_control_output.updated = true then
            match i.differential_drive_control_output.copy with
            | some m => m
            | none => (state_after_arbitration d s i)._differential_drive_setpoint
          else (state_after_arbitration d s i)._differential_drive_setpoint
      else
        if i.differential_drive_control_output.updated = true then
          match i.differential_drive_control_output.copy with
          | some m => m
          | none => (state_after_arbitration d s i)._differential_drive_setpoint
        else (state_after_arbitration d s i)._differential_drive_setpoint := by
  rw [Run_fst, poll_setpoint_setpoint, poll_control_output_setpoint]

theorem Run_setpoint_no_message (d : Deps) (s : State) (i : Inputs)
    (hco : i.differential_drive_control_output.updated = false ∨
      i.differential_drive_control_output.copy = none)
    (hsp : i.differential_drive_setpoint.updated = false ∨
      i.differential_drive_setpoint.copy = none) :
    (Run d s i).1._differential_drive_setpoint =
      (state_after_arbitration d s i)._differential_drive_setpoint := by
  rw [Run_setpoint]
  rcases hco with h1 | h1 <;> rcases hsp with h2 | h2 <;> simp [h1, h2]

/-! ## Hold-last -/

/-- C11: in every cycle in which, after the state refresh, neither manual mode
nor mission mode is active and no message is copied from the control-output or
the setpoint subscription, the setpoint after the cycle (speed, yaw rate and
timestamp) is the setpoint before it. -/
theorem idle_cycle_holds_setpoint (d : Deps) (s : State) (i : Inputs)
    (hman : (refresh d s i)._manual_driving = false)
    (hmis : (refresh d s i)._mission_driving = false)
    (hco : i.differential_drive_control_output.updated = false ∨
      i.differential_drive_control_output.copy = none)
    (hsp : i.differential_drive_setpoint.updated = false ∨
      i.differential_drive_setpoint.copy = none) :
    (Run d s i).1._differential_drive_setpoint = s._differential_drive_setpoint := by
  rw [Run_setpoint_no_message d s i hco hsp]
  unfold state_after_arbitration
  rw [arbitrate_idle d _ i _ _ hman hmis]
  exact (refresh_frame d s i).1

/-- Witness for C11: the sample vehicle receives a mode message that clears both
the manual and the auto flag; its setpoint `(0, 1, 0)` is kept. -/
theorem idle_cycle_holds_setpoint_witness :
    ((refresh sample_deps (sample_state 0 990)
          (mode_inputs 1000 ⟨true, false, false⟩))._manual_driving = false ∧
        (refresh sample_deps (sample_state 0 990)
          (mode_inputs 1000 ⟨true, false, false⟩))._mission_driving = false ∧
        (mode_inputs 1000 ⟨true, false, false⟩).differential_drive_control_output.updated = false ∧
        (mode_inputs 1000 ⟨true, false, false⟩).differential_drive_setpoint.updated = false) ∧
      (Run sample_deps (sample_state 0 990)
        (mode_inputs 1000 ⟨true, false, false⟩)).1._differential_drive_setpoint = ⟨0, 1, 0⟩ :=
  ⟨⟨by decide, by decide, rfl, rfl⟩,
    idle_cycle_holds_setpoint sample_deps (sample_state 0 990)
      (mode_inputs 1000 ⟨true, false, false⟩) (by decide) (by decide) (Or.inl rfl) (Or.inl rfl)⟩

/-! ## Configuration -/

theorem updateParams_configured (d : Deps) (store : Params) (s : State) :
    kinematics_configured (updateParams d store s) := by
  unfold kinematics_configured updateParams
  simp

theorem refresh_configured (d : Deps) (s : State) (i : Inputs) (h : kinematics_configured s) :
    kinematics_configured (refresh d s i) := by
  unfold kinematics_configured refresh
  simp only [(poll_vehicle_local_position_frame d _ i).2.2.2.2.2.1,
    (poll_vehicle_local_position_frame d _ i).2.2.2.2.2.2,
    (poll_vehicle_angular_velocity_frame _ i).2.2.2.2.2.1,
    (poll_vehicle_angular_velocity_frame _ i).2.2.2.2.2.2,
    (poll_vehicle_attitude_frame d _ i).2.2.2.2.2.1,
    (poll_vehicle_attitude_frame d _ i).2.2.2.2.2.2,
    (poll_vehicle_control_mode_frame _ i).2.2.2.2.2.1,
    (poll_vehicle_control_mode_frame _ i).2.2.2.2.2.2]
  unfold poll_parameter_update
  split
  · exact updateParams_configured d _ _
  · exact h

theorem Run_configured (d : Deps) (s : State) (i : Inputs) (h : kinematics_configured s) :
    kinematics_configured (Run d s i).1 := by
  have hr := refresh_configured d s i h
  unfold kinematics_configured at hr ⊢
  rw [(Run_flags d s i).2.2.2, Run_fst, poll_setpoint_frame, (poll_control_output_frame _ i).1]
  unfold state_after_arbitration
  rw [(arbitrate_frame d _ i _ _).2.2.1]
  exact hr

/-- C12: with the kinematics as the spec describes it (zero output when its
maximum speed is not positive) and the kinematics object configured by
`updateParams`, a cycle whose maximum speed (maximum wheel angular speed times
wheel radius, after the parameter refresh of the cycle) is non-positive emits
the wheel command (0, 0), for every setpoint and controller output, armed or
not, fresh or stale, whatever the speed scale. -/
theorem nonpositive_max_speed_stops (d : Deps) (s : State) (i : Inputs)
    (hik : d.computeInverseKinematics = computeInverseKinematics_spec)
    (hcfg : kinematics_configured s)
    (hmax : (refresh d s i).params.rdd_max_wheel_speed *
      (refresh d s i).params.rdd_wheel_radius ≤ 0) :
    wheel_commands (Run d s i).2 = [(0, 0)] := by
  have hk : (Run d s i).1._differential_drive_kinematics._max_speed ≤ 0 := by
    have h := Run_configured d s i hcfg
    unfold kinematics_configured at h
    rw [h, (Run_flags d s i).2.2.2]
    exact hmax
  rw [Run_wheel_commands]
  unfold final_wheel_speeds
  rw [hik]
  simp only [computeInverseKinematics_spec, if_pos hk, ite_self]
  exact congrArg (fun x => [x]) constrain_zero

/-- Witness for C12: the armed sample vehicle, holding the fresh setpoint
`speed = 1` with speed scale 1, receives a parameter update that sets the maximum
wheel speed to 0. -/
theorem nonpositive_max_speed_stops_witness :
    (sample_deps.computeInverseKinematics = computeInverseKinematics_spec ∧
        kinematics_configured (sample_state 1000 990) ∧
        (refresh sample_deps (sample_state 1000 990)
            (parameter_inputs 1000 { sample_params with rdd_max_wheel_speed := 0 })
          ).params.rdd_max_wheel_speed *
          (refresh sample_deps (sample_state 1000 990)
            (parameter_inputs 1000 { sample_params with rdd_max_wheel_speed := 0 })
          ).params.rdd_wheel_radius ≤ 0) ∧
      wheel_commands (Run sample_deps (sample_state 1000 990)
        (parameter_inputs 1000 { sample_params with rdd_max_wheel_speed := 0 })).2 = [(0, 0)] := by
  have h1 : kinematics_configured (sample_state 1000 990) := by
    norm_num [kinematics_configured, sample_state, sample_params]
  have h2 : (refresh sample_deps (sample_state 1000 990)
        (parameter_inputs 1000 { sample_params with rdd_max_wheel_speed := 0 })
      ).params.rdd_max_wheel_speed *
      (refresh sample_deps (sample_state 1000 990)
        (parameter_inputs 1000 { sample_params with rdd_max_wheel_speed := 0 })
      ).params.rdd_wheel_radius ≤ 0 := by
    simp [refresh, poll_parameter_update, updateParams, poll_vehicle_control_mode,
      poll_vehicle_attitude, poll_vehicle_angular_velocity, poll_vehicle_local_position,
      parameter_inputs, quiet_inputs, sample_params]
  exact ⟨⟨rfl, h1, h2⟩,
    nonpositive_max_speed_stops sample_deps (sample_state 1000 990)
      (parameter_inputs 1000 { sample_params with rdd_max_wheel_speed := 0 }) rfl h1 h2⟩

/-! ## Emission -/

/-- C13: every call of `Run` returns and publishes exactly one actuator message;
it carries the final wheel command, the timestamp `now` and the reversible-flags
parameter; when the vehicle is disarmed, the setpoint has timed out or the speed
scale is at or below `FLT_EPSILON`, the message is still published and its
command is (0, 0). -/
theorem every_cycle_emits_once (d : Deps) (s : State) (i : Inputs) :
    actuator_messages (Run d s i).2 =
        [{ timestamp := i.hrt_absolute_time
           reversible_flags := (refresh d s i).params.r_rev
           control := final_wheel_speeds d (state_at_kinematics d s i) i.hrt_absolute_time }] ∧
      (((refresh d s i)._armed = false ∨
          setpoint_timeout (state_at_kinematics d s i) i.hrt_absolute_time = true ∨
          (refresh d s i).params.rdd_speed_scale ≤ FLT_EPSILON) →
        final_wheel_speeds d (state_at_kinematics d s i) i.hrt_absolute_time = (0, 0)) := by
  unfold state_at_kinematics
  constructor
  · rw [Run_actuator_messages, make_actuator_motors, (Run_flags d s i).2.2.2]
  · intro h
    apply final_wheel_speeds_stop
    rcases h with h | h | h
    · simp [(Run_flags d s i).1, h]
    · simp [h]
    · have : valid_max_speed (Run d s i).1 = false := by
        unfold valid_max_speed
        rw [(Run_flags d s i).2.2.2]
        exact decide_eq_false (not_lt.2 h)
      simp [this]

/-- Witness for C13: a cycle at time 200001 with no new input on any feed and a
setpoint stamped 0; one message is published, with command (0, 0), the cycle
time and the reversible flags 3. -/
theorem every_cycle_emits_once_witness :
    setpoint_timeout (state_at_kinematics sample_deps (sample_state 0 199000)
        (quiet_inputs 200001)) 200001 = true ∧
      actuator_messages (Run sample_deps (sample_state 0 199000) (quiet_inputs 200001)).2 =
        [{ timestamp := 200001, reversible_flags := 3, control := (0, 0) }] := by
  have ht : setpoint_timeout (state_at_kinematics sample_deps (sample_state 0 199000)
      (quiet_inputs 200001)) 200001 = true := by decide
  have h := every_cycle_emits_once sample_deps (sample_state 0 199000) (quiet_inputs 200001)
  refine ⟨ht, ?_⟩
  rw [h.1, h.2 (Or.inr (Or.inl ht))]
  rfl

/-! ## The PI controllers -/

theorem poll_setpoint_updated (d : Deps) (s : State) (i : Inputs) (dt : ℚ)
    (h : i.differential_drive_setpoint.updated = true) :
    pid_calls (poll_setpoint d s i dt).2 =
        [(PidId.speed, (poll_setpoint d s i dt).1._differential_drive_setpoint.speed,
            s._velocity_in_body_frame.x, 0, dt),
          (PidId.angular_velocity,
            (poll_setpoint d s i dt).1._differential_drive_setpoint.yaw_rate,
            s._vehicle_angular_velocity.xyz.z, 0, dt)] ∧
      (poll_setpoint d s i dt).1._speed_pid_output =
        (d.pid_calculate s._speed_pid
          (poll_setpoint d s i dt).1._differential_drive_setpoint.speed
          s._velocity_in_body_frame.x 0 dt).2 ∧
      (poll_setpoint d s i dt).1._angular_velocity_pid_output =
        (d.pid_calculate s._angular_velocity_pid
          (poll_setpoint d s i dt).1._differential_drive_setpoint.yaw_rate
          s._vehicle_angular_velocity.xyz.z 0 dt).2 := by
  unfold poll_setpoint pid_calls
  rw [if_pos h]
  cases i.differential_drive_setpoint.copy <;> simp

theorem Run_pid_calls (d : Deps) (s : State) (i : Inputs) :
    pid_calls (Run d s i).2 =
      pid_calls (poll_setpoint d (poll_control_output (state_after_arbitration d s i) i) i
        (compute_dt d s._time_stamp_last i.hrt_absolute_time)).2 := by
  unfold state_after_arbitration
  simp only [Run, pid_calls_append, exit_check_pid, (arbitrate_pid d _ i _ _).1]
  simp [pid_calls]

theorem before_setpoint_poll (d : Deps) (s : State) (i : Inputs) :
    (poll_control_output (state_after_arbitration d s i) i)._speed_pid
        = (refresh d s i)._speed_pid ∧
      (poll_control_output (state_after_arbitration d s i) i)._angular_velocity_pid
        = (refresh d s i)._angular_velocity_pid ∧
      (poll_control_output (state_after_arbitration d s i) i)._velocity_in_body_frame
        = (refresh d s i)._velocity_in_body_frame ∧
      (poll_control_output (state_after_arbitration d s i) i)._vehicle_angular_velocity
        = (refresh d s i)._vehicle_angular_velocity := by
  unfold state_after_arbitration
  refine ⟨?_, ?_, ?_, ?_⟩
  · rw [(poll_control_output_pid _ i).1, (arbitrate_pid d _ i _ _).2.1]
  · rw [(poll_control_output_pid _ i).2, (arbitrate_pid d _ i _ _).2.2]
  · rw [(poll_control_output_frame _ i).2.1, (arbitrate_frame d _ i _ _).2.2.2.1]
  · rw [(poll_control_output_frame _ i).2.2, (arbitrate_frame d _ i _ _).2.2.2.2]

/-- Counterexample for C14 as stated: a manual cycle of the sample vehicle with a
new manual sample and a new control-output message, but no new data on the
setpoint subscription: no PI controller is run, and the kinematics step uses the
corrections 0 and 0 on the setpoint `(2, 0)`. -/
theorem pi_controllers_always_run_counterexample :
    pid_calls (Run sample_deps (sample_state 0 990)
        (manual_and_output_inputs 1000 ⟨1, 0⟩ ⟨1000, 2, 0⟩)).2 = [] ∧
      kinematics_calls (Run sample_deps (sample_state 0 990)
        (manual_and_output_inputs 1000 ⟨1, 0⟩ ⟨1000, 2, 0⟩)).2 = [(2, 0)] := by
  constructor
  · rw [Run_pid_calls, poll_setpoint_not_updated _ _ _ _ rfl]
    rfl
  · rw [Run_kinematics_calls]
    simp [kinematics_input, Run, poll_setpoint, poll_control_output, manual_and_output_inputs,
      quiet_inputs]

/-- C14 (amended): in every control cycle in which the setpoint subscription has
new data, both PI controllers are run, the speed controller with (setpoint speed,
measured body-frame forward velocity, `dt`) and the yaw-rate controller with
(setpoint yaw rate, measured angular velocity about the vertical axis, `dt`), and
the corrections used by the kinematics step of that cycle are the outputs of
these two runs; in a cycle in which that subscription has no new data no PI
controller is run. -/
theorem setpoint_message_runs_pi_controllers (d : Deps) (s : State) (i : Inputs) :
    (i.differential_drive_setpoint.updated = true →
      pid_calls (Run d s i).2 =
          [(PidId.speed, (state_at_kinematics d s i)._differential_drive_setpoint.speed,
              (refresh d s i)._velocity_in_body_frame.x, 0,
              compute_dt d s._time_stamp_last i.hrt_absolute_time),
            (PidId.angular_velocity,
              (state_at_kinematics d s i)._differential_drive_setpoint.yaw_rate,
              (refresh d s i)._vehicle_angular_velocity.xyz.z, 0,
              compute_dt d s._time_stamp_last i.hrt_absolute_time)] ∧
        kinematics_calls (Run d s i).2 =
          [((state_at_kinematics d s i)._differential_drive_setpoint.speed +
              (d.pid_calculate (refresh d s i)._speed_pid
                (state_at_kinematics d s i)._differential_drive_setpoint.speed
                (refresh d s i)._velocity_in_body_frame.x 0
                (compute_dt d s._time_stamp_last i.hrt_absolute_time)).2,
            (state_at_kinematics d s i)._differential_drive_setpoint.yaw_rate +
              (d.pid_calculate (refresh d s i)._angular_velocity_pid
                (state_at_kinematics d s i)._differential_drive_setpoint.yaw_rate
                (refresh d s i)._vehicle_angular_velocity.xyz.z 0
                (compute_dt d s._time_stamp_last i.hrt_absolute_time)).2)]) ∧
      (i.differential_drive_setpoint.updated = false → pid_calls (Run d s i).2 = []) := by
  constructor
  · intro h
    obtain ⟨h1, h2, h3⟩ := poll_setpoint_updated d
      (poll_control_output (state_after_arbitration d s i) i) i
      (compute_dt d s._time_stamp_last i.hrt_absolute_time) h
    obtain ⟨b1, b2, b3, b4⟩ := before_setpoint_poll d s i
    rw [b1, b3] at h2
    rw [b2, b4] at h3
    rw [b3, b4] at h1
    unfold state_at_kinematics
    constructor
    · rw [Run_pid_calls, h1, Run_fst]
    · rw [Run_kinematics_calls]
      unfold kinematics_input
      rw [Run_fst, h2, h3]
  · intro h
    rw [Run_pid_calls, poll_setpoint_not_updated _ _ _ _ h]
    rfl

/-- Witness for C14 (amended): a mission cycle of the sample vehicle with the
setpoint message `(1000, 1, 1)`; both controllers are called, with `dt` equal to
10 microseconds. -/
theorem setpoint_message_runs_pi_controllers_witness :
    (mission_inputs 1000 ⟨1000, 1, 1⟩).differential_drive_setpoint.updated = true ∧
      pid_calls (Run sample_deps (sample_state 0 990) (mission_inputs 1000 ⟨1000, 1, 1⟩)).2 =
        [(PidId.speed, 1, 0, 0, 1 / 100000), (PidId.angular_velocity, 1, 0, 0, 1 / 100000)] := by
  refine ⟨rfl, ?_⟩
  rw [((setpoint_message_runs_pi_controllers sample_deps (sample_state 0 990)
    (mission_inputs 1000 ⟨1000, 1, 1⟩)).1 rfl).1]
  simp [state_at_kinematics, Run, poll_setpoint, refresh, poll_vehicle_local_position,
    poll_vehicle_angular_velocity, poll_vehicle_attitude, poll_vehicle_control_mode,
    poll_parameter_update, mission_inputs, quiet_inputs, sample_state, compute_dt, u64_sub,
    UINT64_MOD, sample_deps]
  norm_num

/-! ## Derived limits -/

theorem updateParams_with_exact (d : Deps) (store : Params) (s : State) :
    updateParams_with (fun a b => a * b) (fun a b => a / b) d store s = updateParams d store s :=
  rfl

theorem Run_pid_not_updated (d : Deps) (s : State) (i : Inputs)
    (hsp : i.differential_drive_setpoint.updated = false) :
    pid_calls (Run d s i).2 = [] ∧
      (Run d s i).1._speed_pid = (refresh d s i)._speed_pid ∧
      (Run d s i).1._angular_velocity_pid = (refresh d s i)._angular_velocity_pid := by
  refine ⟨?_, ?_, ?_⟩
  · rw [Run_pid_calls, poll_setpoint_not_updated _ _ _ _ hsp]
    rfl
  · rw [Run_fst, poll_setpoint_not_updated _ _ _ _ hsp]
    exact (before_setpoint_poll d s i).1
  · rw [Run_fst, poll_setpoint_not_updated _ _ _ _ hsp]
    exact (before_setpoint_poll d s i).2.1

theorem pid_set_parameters_spec_integral (pid : PID_t) (kp ki kd il ol : ℚ) :
    (pid_set_parameters_spec pid kp ki kd il ol).integral = pid.integral := rfl

theorem refresh_integral (d : Deps) (s : State) (i : Inputs)
    (hset : d.pid_set_parameters = pid_set_parameters_spec) :
    (refresh d s i)._speed_pid.integral = s._speed_pid.integral ∧
      (refresh d s i)._angular_velocity_pid.integral = s._angular_velocity_pid.integral := by
  rw [(refresh_pid d s i).1, (refresh_pid d s i).2, hset]
  constructor <;> split <;> rfl

/-- C16: in every cycle in which a new message `m` arrives on the control-output
subscription and the setpoint subscription has no new data, both stored PI
outputs are 0 after the cycle, no PI controller is called, both PID records are
the ones the state refresh left (the ones before the cycle when no parameter
update arrived, and with the integral terms of before the cycle when
`pid_set_parameters` is as the spec describes it), and
`computeInverseKinematics` is called with exactly the speed and yaw rate of `m`. -/
theorem control_output_message_drives_open_loop (d : Deps) (s : State) (i : Inputs)
    (m : differential_drive_setpoint_s)
    (hu : i.differential_drive_control_output.updated = true)
    (hc : i.differential_drive_control_output.copy = some m)
    (hsp : i.differential_drive_setpoint.updated = false) :
    (Run d s i).1._speed_pid_output = 0 ∧
      (Run d s i).1._angular_velocity_pid_output = 0 ∧
      pid_calls (Run d s i).2 = [] ∧
      ((Run d s i).1._speed_pid = (refresh d s i)._speed_pid ∧
        (Run d s i).1._angular_velocity_pid = (refresh d s i)._angular_velocity_pid) ∧
      (i.parameter_update_updated = false →
        (Run d s i).1._speed_pid = s._speed_pid ∧
        (Run d s i).1._angular_velocity_pid = s._angular_velocity_pid) ∧
      (d.pid_set_parameters = pid_set_parameters_spec →
        (Run d s i).1._speed_pid.integral = s._speed_pid.integral ∧
        (Run d s i).1._angular_velocity_pid.integral = s._angular_velocity_pid.integral) ∧
      kinematics_calls (Run d s i).2 = [(m.speed, m.yaw_rate)] := by
  obtain ⟨p1, p2, p3⟩ := Run_pid_not_updated d s i hsp
  obtain ⟨o1, o2, o3⟩ := poll_control_output_updated (state_after_arbitration d s i) i hu
  have e : (Run d s i).1 = poll_control_output (state_after_arbitration d s i) i := by
    rw [Run_fst, poll_setpoint_not_updated _ _ _ _ hsp]
  refine ⟨by rw [e, o1], by rw [e, o2], p1, ⟨p2, p3⟩, ?_, ?_, ?_⟩
  · intro hp
    rw [p2, p3, (refresh_pid d s i).1, (refresh_pid d s i).2]
    simp [hp]
  · intro hset
    rw [p2, p3]
    exact refresh_integral d s i hset
  · rw [Run_kinematics_calls]
    unfold kinematics_input
    rw [e, o1, o2, o3 m hc]
    simp

/-- Witness for C16: a manual cycle of the sample vehicle in which the
control-output subscription delivers `(1000, 1/2, 1/4)`; the kinematics is called
with `(1/2, 1/4)`. -/
theorem control_output_message_drives_open_loop_witness :
    ((manual_and_output_inputs 1000 ⟨1, 0⟩
          ⟨1000, 1 / 2, 1 / 4⟩).differential_drive_control_output.updated = true ∧
        (manual_and_output_inputs 1000 ⟨1, 0⟩
          ⟨1000, 1 / 2, 1 / 4⟩).differential_drive_control_output.copy
          = some ⟨1000, 1 / 2, 1 / 4⟩ ∧
        (manual_and_output_inputs 1000 ⟨1, 0⟩
          ⟨1000, 1 / 2, 1 / 4⟩).differential_drive_setpoint.updated = false) ∧
      kinematics_calls (Run sample_deps (sample_state 0 990)
        (manual_and_output_inputs 1000 ⟨1, 0⟩ ⟨1000, 1 / 2, 1 / 4⟩)).2 = [(1 / 2, 1 / 4)] :=
  ⟨⟨rfl, rfl, rfl⟩,
    (control_output_message_drives_open_loop sample_deps (sample_state 0 990)
      (manual_and_output_inputs 1000 ⟨1, 0⟩ ⟨1000, 1 / 2, 1 / 4⟩) ⟨1000, 1 / 2, 1 / 4⟩
      rfl rfl rfl).2.2.2.2.2.2⟩

theorem arbitrate_mission_timestamp (d : Deps) (s : State) (i : Inputs)
    (hman : (refresh d s i)._manual_driving = false)
    (hmis : (refresh d s i)._mission_driving = true) :
    (state_after_arbitration d s i)._differential_drive_setpoint.timestamp
      = i.hrt_absolute_time := by
  unfold state_after_arbitration
  rw [arbitrate_mission d _ i _ _ hman hmis]
/-- C17: in every cycle in which, after the state refresh, manual mode is
inactive and mission mode is active, no message is copied from the control-output
or the setpoint subscription, and `now + 100 ms` does not overflow 64 bits, the
setpoint at the kinematics step is stamped `now` and the timeout condition is
false; if moreover the vehicle is armed and the speed scale is above
`FLT_EPSILON`, the emitted wheel command is the clamped kinematics output. -/
theorem mission_cycle_setpoint_is_fresh (d : Deps) (s : State) (i : Inputs)
    (hman : (refresh d s i)._manual_driving = false)
    (hmis : (refresh d s i)._mission_driving = true)
    (hco : i.differential_drive_control_output.updated = false ∨
      i.differential_drive_control_output.copy = none)
    (hsp : i.differential_drive_setpoint.updated = false ∨
      i.differential_drive_setpoint.copy = none)
    (hnow : i.hrt_absolute_time + 100000 < 2 ^ 64) :
    (state_at_kinematics d s i)._differential_drive_setpoint.timestamp = i.hrt_absolute_time ∧
      setpoint_timeout (state_at_kinematics d s i) i.hrt_absolute_time = false ∧
      ((refresh d s i)._armed = true →
        (refresh d s i).params.rdd_speed_scale > FLT_EPSILON →
        wheel_commands (Run d s i).2 =
          [constrain2
            (d.computeInverseKinematics
              (state_at_kinematics d s i)._differential_drive_kinematics
              ((state_at_kinematics d s i)._differential_drive_setpoint.speed +
                (state_at_kinematics d s i)._speed_pid_output)
              ((state_at_kinematics d s i)._differential_drive_setpoint.yaw_rate +
                (state_at_kinematics d s i)._angular_velocity_pid_output))
            (-1) 1]) := by
  have hts : (state_at_kinematics d s i)._differential_drive_setpoint.timestamp
      = i.hrt_absolute_time := by
    unfold state_at_kinematics
    rw [Run_setpoint_no_message d s i hco hsp, (arbitrate_mission_timestamp d s i hman hmis)]
  have hto : setpoint_timeout (state_at_kinematics d s i) i.hrt_absolute_time = false := by
    unfold setpoint_timeout u64_add hundred_ms UINT64_MOD
    rw [hts, Nat.mod_eq_of_lt hnow]
    exact decide_eq_false (by omega)
  refine ⟨hts, hto, ?_⟩
  intro ha hv
  unfold state_at_kinematics at hto ⊢
  have hvalid : valid_max_speed (Run d s i).1 = true := by
    unfold valid_max_speed
    rw [(Run_flags d s i).2.2.2]
    exact decide_eq_true hv
  rw [Run_wheel_commands, final_wheel_speeds_go d _ _
    (by simp [(Run_flags d s i).1, ha, hto, hvalid])]
  rfl

/-- Witness for C17: the sample vehicle is switched to mission mode at time 1000
with no setpoint message on either subscription; the guidance answer (1, 1) is
stamped 1000 and the emitted command is (3/8, 5/8). -/
theorem mission_cycle_setpoint_is_fresh_witness :
    ((refresh sample_deps (sample_state 0 990)
          (mode_inputs 1000 ⟨true, false, true⟩))._manual_driving = false ∧
        (refresh sample_deps (sample_state 0 990)
          (mode_inputs 1000 ⟨true, false, true⟩))._mission_driving = true ∧
        (mode_inputs 1000 ⟨true, false, true⟩).differential_drive_control_output.updated = false ∧
        (mode_inputs 1000 ⟨true, false, true⟩).differential_drive_setpoint.updated = false ∧
        (mode_inputs 1000 ⟨true, false, true⟩).hrt_absolute_time + 100000 < 2 ^ 64 ∧
        (refresh sample_deps (sample_state 0 990)
          (mode_inputs 1000 ⟨true, false, true⟩))._armed = true ∧
        (refresh sample_deps (sample_state 0 990)
          (mode_inputs 1000 ⟨true, false, true⟩)).params.rdd_speed_scale > FLT_EPSILON) ∧
      wheel_commands (Run sample_deps (sample_state 0 990)
        (mode_inputs 1000 ⟨true, false, true⟩)).2 = [(3 / 8, 5 / 8)] := by
  have hv : (refresh sample_deps (sample_state 0 990)
      (mode_inputs 1000 ⟨true, false, true⟩)).params.rdd_speed_scale > FLT_EPSILON := by
    simp [refresh, poll_parameter_update, poll_vehicle_control_mode, poll_vehicle_attitude,
      poll_vehicle_angular_velocity, poll_vehicle_local_position, mode_inputs, quiet_inputs,
      sample_state, sample_params, FLT_EPSILON]
    norm_num
  refine ⟨⟨by decide, by decide, rfl, rfl, by decide, by decide, hv⟩, ?_⟩
  rw [(mission_cycle_setpoint_is_fresh sample_deps (sample_state 0 990)
    (mode_inputs 1000 ⟨true, false, true⟩) (by decide) (by decide) (Or.inl rfl) (Or.inl rfl)
    (by decide)).2.2 (by decide) hv]
  simp [state_at_kinematics, Run, poll_setpoint, poll_control_output, arbitrate, refresh,
    poll_parameter_update, poll_vehicle_control_mode, poll_vehicle_attitude,
    poll_vehicle_angular_velocity, poll_vehicle_local_position, mode_inputs, quiet_inputs,
    sample_state, sample_deps, computeInverseKinematics_spec, constrain2, constrain]
  norm_num

/-- Counterexample for C18 as stated. Part one, the history of three cycles:
the first receives a setpoint message and computes the speed correction
200001/100000; the second receives only a control-output message, which zeroes
the stored corrections; in the third no subscription has new data, and the
kinematics is called with the bare setpoint (2, 0): the correction is 0, not the
one computed in the last cycle that received a setpoint message. Part two: a
cycle without subscription data in which a parameter update arrives changes the
proportional gain held in the speed PID record from 1 to 2. -/
theorem stale_correction_counterexample :
    ((mission_inputs 1000 ⟨1000, 1, 1⟩).differential_drive_setpoint.updated = true ∧
        history_1._speed_pid_output = 200001 / 100000 ∧
        (manual_switch_inputs 11000 ⟨1, 0⟩ ⟨11000, 2, 0⟩).differential_drive_setpoint.updated
          = false ∧
        (quiet_inputs 21000).differential_drive_control_output.updated = false ∧
        (quiet_inputs 21000).differential_drive_setpoint.updated = false ∧
        history_3._speed_pid_output = 0 ∧
        kinematics_calls (Run sample_deps history_2 (quiet_inputs 21000)).2 = [(2, 0)]) ∧
      ((parameter_inputs 1000
            { sample_params with rdd_p_gain_speed := 2 }).differential_drive_control_output.updated
          = false ∧
        (parameter_inputs 1000
            { sample_params with rdd_p_gain_speed := 2 }).differential_drive_setpoint.updated
          = false ∧
        (sample_state 0 990)._speed_pid.kp = 1 ∧
        (Run sample_deps (sample_state 0 990)
          (parameter_inputs 1000 { sample_params with rdd_p_gain_speed := 2 })).1._speed_pid.kp
          = 2) := by
  have h1 : history_1._speed_pid_output = 200001 / 100000 := by
    simp [history_1, Run, poll_setpoint, poll_control_output, arbitrate, refresh,
      poll_parameter_update, poll_vehicle_control_mode, poll_vehicle_attitude,
      poll_vehicle_angular_velocity, poll_vehicle_local_position, mission_inputs, quiet_inputs,
      sample_state, sample_pid, sample_deps, pid_calculate_spec, constrain, compute_dt, u64_sub,
      UINT64_MOD]
    norm_num
  have h3 : history_3._speed_pid_output = 0 := by
    simp [history_3, history_2, Run, poll_setpoint, poll_control_output, arbitrate, refresh,
      poll_parameter_update, poll_vehicle_control_mode, poll_vehicle_attitude,
      poll_vehicle_angular_velocity, poll_vehicle_local_position, manual_switch_inputs,
      manual_and_output_inputs, quiet_inputs]
  have k3 : kinematics_calls (Run sample_deps history_2 (quiet_inputs 21000)).2 = [(2, 0)] := by
    rw [Run_kinematics_calls]
    simp [kinematics_input, history_2, Run, poll_setpoint, poll_control_output, arbitrate,
      refresh, poll_parameter_update, poll_vehicle_control_mode, poll_vehicle_attitude,
      poll_vehicle_angular_velocity, poll_vehicle_local_position, manual_switch_inputs,
      manual_and_output_inputs, quiet_inputs]
  refine ⟨⟨rfl, h1, rfl, rfl, rfl, h3, k3⟩, ⟨rfl, rfl, rfl, ?_⟩⟩
  simp [Run, poll_setpoint, poll_control_output, arbitrate, refresh, poll_parameter_update,
    updateParams, poll_vehicle_control_mode, poll_vehicle_attitude,
    poll_vehicle_angular_velocity, poll_vehicle_local_position, parameter_inputs, quiet_inputs,
    sample_state, sample_deps, pid_set_parameters_spec, sample_params]

/-- C18 (amended): in every cycle in which neither the control-output
subscription nor the setpoint subscription has new data, `Run` calls no PI
controller and leaves both stored PI outputs unchanged; both PID records are the
ones the state refresh left (the ones before the cycle when no parameter update
arrived, and with the integral terms of before the cycle when
`pid_set_parameters` is as the spec describes it); the setpoint at the
kinematics step is the one arbitration left, and the correction added to it is
the one stored when the cycle began, also when the manual or mission branch
rewrote the setpoint in this cycle. -/
theorem quiet_subscriptions_keep_corrections (d : Deps) (s : State) (i : Inputs)
    (hco : i.differential_drive_control_output.updated = false)
    (hsp : i.differential_drive_setpoint.updated = false) :
    pid_calls (Run d s i).2 = [] ∧
      ((Run d s i).1._speed_pid_output = s._speed_pid_output ∧
        (Run d s i).1._angular_velocity_pid_output = s._angular_velocity_pid_output) ∧
      ((Run d s i).1._speed_pid = (refresh d s i)._speed_pid ∧
        (Run d s i).1._angular_velocity_pid = (refresh d s i)._angular_velocity_pid) ∧
      (i.parameter_update_updated = false →
        (Run d s i).1._speed_pid = s._speed_pid ∧
        (Run d s i).1._angular_velocity_pid = s._angular_velocity_pid) ∧
      (d.pid_set_parameters = pid_set_parameters_spec →
        (Run d s i).1._speed_pid.integral = s._speed_pid.integral ∧
        (Run d s i).1._angular_velocity_pid.integral = s._angular_velocity_pid.integral) ∧
      (state_at_kinematics d s i)._differential_drive_setpoint =
        (state_after_arbitration d s i)._differential_drive_setpoint ∧
      kinematics_calls (Run d s i).2 =
        [((state_after_arbitration d s i)._differential_drive_setpoint.speed +
            s._speed_pid_output,
          (state_after_arbitration d s i)._differential_drive_setpoint.yaw_rate +
            s._angular_velocity_pid_output)] := by
  obtain ⟨p1, p2, p3⟩ := Run_pid_not_updated d s i hsp
  have e : (Run d s i).1 = state_after_arbitration d s i := by
    rw [Run_fst, poll_setpoint_not_updated _ _ _ _ hsp, poll_control_output_not_updated _ _ hco]
  have o1 : (Run d s i).1._speed_pid_output = s._speed_pid_output := by
    rw [e]
    unfold state_after_arbitration
    rw [(arbitrate_frame d _ i _ _).1, (refresh_frame d s i).2.1]
  have o2 : (Run d s i).1._angular_velocity_pid_output = s._angular_velocity_pid_output := by
    rw [e]
    unfold state_after_arbitration
    rw [(arbitrate_frame d _ i _ _).2.1, (refresh_frame d s i).2.2]
  refine ⟨p1, ⟨o1, o2⟩, ⟨p2, p3⟩, ?_, ?_, ?_, ?_⟩
  · intro hp
    rw [p2, p3, (refresh_pid d s i).1, (refresh_pid d s i).2]
    simp [hp]
  · intro hset
    rw [p2, p3]
    exact refresh_integral d s i hset
  · unfold state_at_kinematics
    rw [e]
  · rw [Run_kinematics_calls]
    unfold kinematics_input
    rw [o1, o2, e]

/-- Witness for C18 (amended): after the first cycle of the history, a mission
cycle without subscription data rewrites the setpoint to the guidance answer
(1, 1) and adds the corrections stored by the first cycle. -/
theorem quiet_subscriptions_keep_corrections_witness :
    ((quiet_inputs 11000).differential_drive_control_output.updated = false ∧
        (quiet_inputs 11000).differential_drive_setpoint.updated = false) ∧
      pid_calls (Run sample_deps history_1 (quiet_inputs 11000)).2 = [] ∧
      kinematics_calls (Run sample_deps history_1 (quiet_inputs 11000)).2 =
        [(300001 / 100000, 300001 / 100000)] := by
  have h := quiet_subscriptions_keep_corrections sample_deps history_1 (quiet_inputs 11000)
    rfl rfl
  refine ⟨⟨rfl, rfl⟩, h.1, ?_⟩
  rw [h.2.2.2.2.2.2]
  simp [state_after_arbitration, arbitrate, history_1, Run, poll_setpoint, poll_control_output,
    refresh, poll_parameter_update, poll_vehicle_control_mode, poll_vehicle_attitude,
    poll_vehicle_angular_velocity, poll_vehicle_local_position, mission_inputs, quiet_inputs,
    sample_state, sample_pid, sample_deps, pid_calculate_spec, constrain, compute_dt, u64_sub,
    UINT64_MOD]
  norm_num

/-! ## Control-output messages and the PID records -/

theorem history_1_outputs :
    history_1._speed_pid_output = 200001 / 100000 ∧
      history_1._angular_velocity_pid_output = 200001 / 100000 := by
  constructor <;>
  · simp [history_1, Run, poll_setpoint, poll_control_output, arbitrate, refresh,
      poll_parameter_update, poll_vehicle_control_mode, poll_vehicle_attitude,
      poll_vehicle_angular_velocity, poll_vehicle_local_position, mission_inputs, quiet_inputs,
      sample_state, sample_pid, sample_deps, pid_calculate_spec, constrain, compute_dt, u64_sub,
      UINT64_MOD]
    norm_num

/-- C9 (amended): whenever a new message arrives on the control-output
subscription in a cycle in which the setpoint subscription has no new data, both
stored PI outputs (the corrections added to the setpoint) are zero at the end of
that cycle and `Run` makes no `pid_calculate` call; no integral term is reset:
both PID records are the ones the state refresh of the cycle left, which are the
records of before the cycle when no parameter update arrived, and have the
integral terms of before the cycle when `pid_set_parameters` is as the spec
describes it. -/
theorem control_output_zeroes_pi_outputs (d : Deps) (s : State) (i : Inputs)
    (hco : i.differential_drive_control_output.updated = true)
    (hsp : i.differential_drive_setpoint.updated = false) :
    (Run d s i).1._speed_pid_output = 0 ∧
      (Run d s i).1._angular_velocity_pid_output = 0 ∧
      pid_calls (Run d s i).2 = [] ∧
      (Run d s i).1._speed_pid = (refresh d s i)._speed_pid ∧
      (Run d s i).1._angular_velocity_pid = (refresh d s i)._angular_velocity_pid ∧
      (i.parameter_update_updated = false →
        (Run d s i).1._speed_pid = s._speed_pid ∧
        (Run d s i).1._angular_velocity_pid = s._angular_velocity_pid) ∧
      (d.pid_set_parameters = pid_set_parameters_spec →
        (Run d s i).1._speed_pid.integral = s._speed_pid.integral ∧
        (Run d s i).1._angular_velocity_pid.integral = s._angular_velocity_pid.integral) := by
  obtain ⟨p1, p2, p3⟩ := Run_pid_not_updated d s i hsp
  obtain ⟨o1, o2, -⟩ := poll_control_output_updated (state_after_arbitration d s i) i hco
  have e : (Run d s i).1 = poll_control_output (state_after_arbitration d s i) i := by
    rw [Run_fst, poll_setpoint_not_updated _ _ _ _ hsp]
  refine ⟨by rw [e, o1], by rw [e, o2], p1, p2, p3, ?_, ?_⟩
  · intro hp
    rw [p2, p3, (refresh_pid d s i).1, (refresh_pid d s i).2]
    simp [hp]
  · intro hset
    rw [p2, p3]
    exact refresh_integral d s i hset

/-- Witness for C9 (amended): the second cycle of the history. The vehicle
enters it with both stored PI outputs at 200001/100000, left by the first cycle;
it is switched to manual mode and receives a control-output message. After the
cycle both stored outputs are 0 and both PID records, integral terms included,
are as before. -/
theorem control_output_zeroes_pi_outputs_witness :
    ((manual_switch_inputs 11000 ⟨1, 0⟩ ⟨11000, 2, 0⟩).differential_drive_control_output.updated
          = true ∧
        (manual_switch_inputs 11000 ⟨1, 0⟩ ⟨11000, 2, 0⟩).differential_drive_setpoint.updated
          = false ∧
        (manual_switch_inputs 11000 ⟨1, 0⟩ ⟨11000, 2, 0⟩).parameter_update_updated = false ∧
        sample_deps.pid_set_parameters = pid_set_parameters_spec) ∧
      (history_1._speed_pid_output = 200001 / 100000 ∧
        history_1._angular_velocity_pid_output = 200001 / 100000) ∧
      ((Run sample_deps history_1
          (manual_switch_inputs 11000 ⟨1, 0⟩ ⟨11000, 2, 0⟩)).1._speed_pid_output = 0 ∧
        (Run sample_deps history_1
          (manual_switch_inputs 11000 ⟨1, 0⟩ ⟨11000, 2, 0⟩)).1._angular_velocity_pid_output = 0) ∧
      ((Run sample_deps history_1
          (manual_switch_inputs 11000 ⟨1, 0⟩ ⟨11000, 2, 0⟩)).1._speed_pid = history_1._speed_pid ∧
        (Run sample_deps history_1
          (manual_switch_inputs 11000 ⟨1, 0⟩ ⟨11000, 2, 0⟩)).1._angular_velocity_pid
          = history_1._angular_velocity_pid) ∧
      ((Run sample_deps history_1
          (manual_switch_inputs 11000 ⟨1, 0⟩ ⟨11000, 2, 0⟩)).1._speed_pid.integral
          = history_1._speed_pid.integral ∧
        (Run sample_deps history_1
          (manual_switch_inputs 11000 ⟨1, 0⟩ ⟨11000, 2, 0⟩)).1._angular_velocity_pid.integral
          = history_1._angular_velocity_pid.integral) :=
  ⟨⟨rfl, rfl, rfl, rfl⟩, history_1_outputs,
    ⟨(control_output_zeroes_pi_outputs sample_deps history_1
        (manual_switch_inputs 11000 ⟨1, 0⟩ ⟨11000, 2, 0⟩) rfl rfl).1,
      (control_output_zeroes_pi_outputs sample_deps history_1
        (manual_switch_inputs 11000 ⟨1, 0⟩ ⟨11000, 2, 0⟩) rfl rfl).2.1⟩,
    (control_output_zeroes_pi_outputs sample_deps history_1
      (manual_switch_inputs 11000 ⟨1, 0⟩ ⟨11000, 2, 0⟩) rfl rfl).2.2.2.2.2.1 rfl,
    (control_output_zeroes_pi_outputs sample_deps history_1
      (manual_switch_inputs 11000 ⟨1, 0⟩ ⟨11000, 2, 0⟩) rfl rfl).2.2.2.2.2.2 rfl⟩

end DifferentialDrive
